import Mathlib

/-!
Verification development for the metrics acquisition and aggregation
pipeline of the mtop terminal dashboard (src/main.rs).

Modelling conventions (shallow embedding):
- Rust f64 values are modelled as exact rationals; every floating-point
  operation of the source that the claims mention (division by 1000,
  clamping, averaging, truncating casts) is exact on the inputs involved.
  The special values inf and NaN and hexadecimal float literals are not
  representable; the decimal-literal parser maps them to none.
- Rust i32/u64 values are modelled as Int/Nat; the saturating `as i32`
  cast is modelled explicitly by f64_as_i32.
- Instant timestamps are modelled as rationals; Duration::from_secs 120
  becomes the rational 120.
- Strings are lists of characters; the character classes \w, \d and \s of
  the regex crate are modelled on their ASCII fragments, which covers the
  powermetrics line shapes the parsers consume.
- Each regex of the source is translated to a dedicated matcher.  For the
  nine patterns of the source, greedy backtracking matching is
  deterministic: every repetition is followed by a literal whose first
  character cannot extend the repetition, so a maximal-run matcher is
  exact.  Search tries each start position from the left, as the regex
  crate's leftmost-first search does; a match attempt at the empty suffix
  always fails because every pattern consumes at least one character.
-/

/-- Character class \w of the regex crate, ASCII fragment. -/
def isWordChar (c : Char) : Bool := c.isAlphanum || c = '_'

/-- Character class \s of the regex crate, ASCII fragment. -/
def is_space (c : Char) : Bool :=
  c = ' ' || c = '\t' || c = '\n' || c = '\r' || c = '\x0B' || c = '\x0C'

/-- Character class [\d.] used by the network and disk regexes. -/
def isDigitDot (c : Char) : Bool := c.isDigit || c = '.'

/-- Matches a literal fragment of a regex at the head of the input and
returns the remainder, or none. -/
def stripLit : List Char → List Char → Option (List Char)
  | [], l => some l
  | _ :: _, [] => none
  | p :: ps, c :: cs => if c = p then stripLit ps cs else none

/-- Greedy nonempty repetition (p+) of a character class: the maximal run
satisfying the class together with the remainder, or none if empty. -/
def span1 (p : Char → Bool) (l : List Char) : Option (List Char × List Char) :=
  if l.takeWhile p = [] then none else some (l.takeWhile p, l.dropWhile p)

/-- Greedy possibly-empty repetition (\s*) of the whitespace class. -/
def wsStar (l : List Char) : List Char := l.dropWhile is_space

/-- Optional literal group (HW)? of the GPU regexes. -/
def optHW (l : List Char) : List Char :=
  match l with
  | c1 :: c2 :: rest => if c1 = 'H' ∧ c2 = 'W' then rest else l
  | _ => l

/-- Substring containment, translating Rust str::contains. -/
def containsSub (needle : List Char) : List Char → Bool
  | [] => needle.isEmpty
  | c :: rest => needle.isPrefixOf (c :: rest) || containsSub needle rest

/-- Helper for splitWs: walks the line once, building the current word in
the reversed accumulator and emitting it at each whitespace boundary. -/
def splitWsAux : List Char → List Char → List (List Char)
  | [], acc => if acc.isEmpty then [] else [acc.reverse]
  | c :: rest, acc =>
    if is_space c then
      if acc.isEmpty then splitWsAux rest [] else acc.reverse :: splitWsAux rest []
    else splitWsAux rest (c :: acc)

/-- Translation of Rust str::split_whitespace: maximal runs of
non-whitespace characters, with whitespace runs discarded. -/
def splitWs (l : List Char) : List (List Char) := splitWsAux l []

/-- Helper for trimEndMW: removes every leading occurrence of the reversed
needle "Wm" from a reversed string. -/
def stripWmRepeat : List Char → List Char
  | 'W' :: 'm' :: rest => stripWmRepeat rest
  | l => l

/-- Translation of Rust trim_end_matches("mW"): repeatedly removes the
suffix "mW". -/
def trimEndMW (l : List Char) : List Char := (stripWmRepeat l.reverse).reverse

/-- Value of a string of ASCII digits. -/
def natOfDigits (l : List Char) : Nat := l.foldl (fun a c => a * 10 + (c.toNat - 48)) 0

/-- Exponent suffix of a float literal: a nonempty all-digit exponent scales
the mantissa by a signed power of ten, anything else fails. -/
def expApply (v : ℚ) (sgn : Int) (d : List Char) : Option ℚ :=
  if d ≠ [] ∧ d.all Char.isDigit then some (v * (10 : ℚ) ^ (sgn * (natOfDigits d : Int)))
  else none

/-- Parses the optional exponent part of a float literal after the mantissa. -/
def parseExpPart (v : ℚ) : List Char → Option ℚ
  | [] => some v
  | c :: r =>
    if c = 'e' ∨ c = 'E' then
      match r with
      | [] => none
      | c2 :: r2 =>
        if c2 = '+' then expApply v 1 r2
        else if c2 = '-' then expApply v (-1) r2
        else expApply v 1 (c2 :: r2)
    else none

/-- Unsigned mantissa (digits, optional point, digits) with optional
exponent, as an exact rational. -/
def parseF64core (l : List Char) : Option ℚ :=
  let ip := l.takeWhile Char.isDigit
  let r1 := l.dropWhile Char.isDigit
  match r1 with
  | c :: r2 =>
    if c = '.' then
      let fp := r2.takeWhile Char.isDigit
      let r3 := r2.dropWhile Char.isDigit
      if ip = [] ∧ fp = [] then none
      else parseExpPart ((natOfDigits ip : ℚ) + (natOfDigits fp : ℚ) / (10 : ℚ) ^ fp.length) r3
    else if ip = [] then none else parseExpPart (natOfDigits ip : ℚ) r1
  | [] => if ip = [] then none else some ((natOfDigits ip : ℚ))

/-- Model of Rust str::parse::<f64> on finite decimal literals: optional
sign, then mantissa and optional exponent; inf/NaN map to none. -/
def parseF64 (l : List Char) : Option ℚ :=
  match l with
  | [] => none
  | c :: r =>
    if c = '+' then parseF64core r
    else if c = '-' then (parseF64core r).map (fun q => -q)
    else parseF64core (c :: r)

/-- Signed digit string within the i32 range, or none. -/
def parseI32core (d : List Char) (sgn : Int) : Option Int :=
  if d ≠ [] ∧ d.all Char.isDigit then
    let v : Int := sgn * (natOfDigits d : Int)
    if -2147483648 ≤ v ∧ v ≤ 2147483647 then some v else none
  else none

/-- Model of Rust str::parse::<i32>: optional sign, digits, range check. -/
def parseI32 (l : List Char) : Option Int :=
  match l with
  | [] => none
  | c :: r =>
    if c = '+' then parseI32core r 1
    else if c = '-' then parseI32core r (-1)
    else parseI32core (c :: r) 1

/-- Truncation toward zero of a rational, the rounding mode of Rust float
to integer casts. -/
def ratTrunc (q : ℚ) : Int := if 0 ≤ q then ⌊q⌋ else -⌊-q⌋

/-- Model of the Rust saturating cast f64 as i32. -/
def f64_as_i32 (q : ℚ) : Int := max (-2147483648) (min 2147483647 (ratTrunc q))

/-- Model of Rust f64::clamp. -/
def ratClamp (x lo hi : ℚ) : ℚ := if x < lo then lo else if hi < x then hi else x

/-- Translation of retain_recent (src/main.rs:581): pops entries older than
120 seconds from the front of the history until the front is recent. -/
def retain_recent {α : Type} (now : ℚ) : List (ℚ × α) → List (ℚ × α)
  | [] => []
  | (t, v) :: rest => if t < now - 120 then retain_recent now rest else (t, v) :: rest

/-- Translation of average_history (src/main.rs:592): 0 for an empty
history, otherwise the sum of the values divided by the count.  The
conversion toF64 plays the role of the Into f64 bound. -/
def average_history {α : Type} (toF64 : α → ℚ) (h : List (ℚ × α)) : ℚ :=
  if h.isEmpty then 0 else (h.map (fun p => toF64 p.2)).sum / (h.length : ℚ)

/-- Translation of the CPUMetrics record (src/main.rs:27). -/
structure CPUMetrics where
  e_cluster_active : Int
  e_cluster_freq_mhz : Int
  p_cluster_active : Int
  p_cluster_freq_mhz : Int
  ane_w : ℚ
  cpu_w : ℚ
  gpu_w : ℚ
  package_w : ℚ
  e_cluster_active_history : List (ℚ × Int)
  p_cluster_active_history : List (ℚ × Int)
  ane_w_history : List (ℚ × ℚ)
deriving DecidableEq

/-- Translation of CPUMetrics::new. -/
def CPUMetrics.new : CPUMetrics :=
  { e_cluster_active := 0, e_cluster_freq_mhz := 0, p_cluster_active := 0,
    p_cluster_freq_mhz := 0, ane_w := 0, cpu_w := 0, gpu_w := 0, package_w := 0,
    e_cluster_active_history := [], p_cluster_active_history := [], ane_w_history := [] }

/-- Translation of CPUMetrics::append_e_cluster_active. -/
def CPUMetrics.append_e_cluster_active (m : CPUMetrics) (now : ℚ) (value : Int) : CPUMetrics :=
  { m with e_cluster_active_history := retain_recent now (m.e_cluster_active_history ++ [(now, value)]) }

/-- Translation of CPUMetrics::append_p_cluster_active. -/
def CPUMetrics.append_p_cluster_active (m : CPUMetrics) (now : ℚ) (value : Int) : CPUMetrics :=
  { m with p_cluster_active_history := retain_recent now (m.p_cluster_active_history ++ [(now, value)]) }

/-- Translation of CPUMetrics::append_ane_w. -/
def CPUMetrics.append_ane_w (m : CPUMetrics) (now : ℚ) (value : ℚ) : CPUMetrics :=
  { m with ane_w_history := retain_recent now (m.ane_w_history ++ [(now, value)]) }

/-- Translation of the NetDiskMetrics record (src/main.rs:90). -/
structure NetDiskMetrics where
  out_packets_per_sec : ℚ
  out_bytes_per_sec : ℚ
  in_packets_per_sec : ℚ
  in_bytes_per_sec : ℚ
  read_ops_per_sec : ℚ
  write_ops_per_sec : ℚ
  read_kbytes_per_sec : ℚ
  write_kbytes_per_sec : ℚ
deriving DecidableEq

/-- Translation of NetDiskMetrics::new. -/
def NetDiskMetrics.new : NetDiskMetrics :=
  { out_packets_per_sec := 0, out_bytes_per_sec := 0, in_packets_per_sec := 0,
    in_bytes_per_sec := 0, read_ops_per_sec := 0, write_ops_per_sec := 0,
    read_kbytes_per_sec := 0, write_kbytes_per_sec := 0 }

/-- Translation of the GPUMetrics record (src/main.rs:117). -/
structure GPUMetrics where
  freq_mhz : Int
  active : ℚ
  active_history : List (ℚ × ℚ)
deriving DecidableEq

/-- Translation of GPUMetrics::new. -/
def GPUMetrics.new : GPUMetrics := { freq_mhz := 0, active := 0, active_history := [] }

/-- Translation of GPUMetrics::append_active. -/
def GPUMetrics.append_active (g : GPUMetrics) (now : ℚ) (value : ℚ) : GPUMetrics :=
  { g with active_history := retain_recent now (g.active_history ++ [(now, value)]) }

/-- Matcher for RESIDENCY_RE at one start position. -/
def matchResidencyAt (l : List Char) : Option (List Char × List Char) :=
  (span1 isWordChar l).bind fun s1 =>
  (stripLit "-Cluster".toList s1.2).bind fun r2 =>
  (span1 is_space r2).bind fun s2 =>
  (stripLit "HW active residency:".toList s2.2).bind fun r4 =>
  (span1 is_space r4).bind fun s3 =>
  (span1 Char.isDigit s3.2).bind fun s4 =>
  (stripLit ".".toList s4.2).bind fun r7 =>
  (span1 Char.isDigit r7).bind fun s5 =>
  (stripLit "%".toList s5.2).bind fun _ =>
  some (s1.1 ++ "-Cluster".toList, s4.1 ++ '.' :: s5.1)

/-- Leftmost search with RESIDENCY_RE. -/
def searchResidency : List Char → Option (List Char × List Char)
  | [] => none
  | c :: rest =>
    match matchResidencyAt (c :: rest) with
    | some r => some r
    | none => searchResidency rest

/-- Matcher for FREQUENCY_RE at one start position. -/
def matchFrequencyAt (l : List Char) : Option (List Char × List Char) :=
  (span1 isWordChar l).bind fun s1 =>
  (stripLit "-Cluster".toList s1.2).bind fun r2 =>
  (span1 is_space r2).bind fun s2 =>
  (stripLit "HW active frequency:".toList s2.2).bind fun r4 =>
  (span1 is_space r4).bind fun s3 =>
  (span1 Char.isDigit s3.2).bind fun s4 =>
  (span1 is_space s4.2).bind fun s5 =>
  (stripLit "MHz".toList s5.2).bind fun _ =>
  some (s1.1 ++ "-Cluster".toList, s4.1)

/-- Leftmost search with FREQUENCY_RE. -/
def searchFrequency : List Char → Option (List Char × List Char)
  | [] => none
  | c :: rest =>
    match matchFrequencyAt (c :: rest) with
    | some r => some r
    | none => searchFrequency rest

/-- Matcher for GPU_ACTIVE_RE at one start position. -/
def matchGpuActiveAt (l : List Char) : Option (List Char) :=
  (stripLit "GPU".toList l).bind fun r1 =>
  (stripLit "active".toList (wsStar (optHW (wsStar r1)))).bind fun r2 =>
  (stripLit "residency:".toList (wsStar r2)).bind fun r3 =>
  (span1 is_space r3).bind fun s1 =>
  (span1 Char.isDigit s1.2).bind fun s2 =>
  (stripLit ".".toList s2.2).bind fun r6 =>
  (span1 Char.isDigit r6).bind fun s3 =>
  (stripLit "%".toList s3.2).bind fun _ =>
  some (s2.1 ++ '.' :: s3.1)

/-- Leftmost search with GPU_ACTIVE_RE. -/
def searchGpuActive : List Char → Option (List Char)
  | [] => none
  | c :: rest =>
    match matchGpuActiveAt (c :: rest) with
    | some r => some r
    | none => searchGpuActive rest

/-- Matcher for GPU_FREQ_RE at one start position. -/
def matchGpuFreqAt (l : List Char) : Option (List Char) :=
  (stripLit "GPU".toList l).bind fun r1 =>
  (stripLit "active".toList (wsStar (optHW (wsStar r1)))).bind fun r2 =>
  (stripLit "frequency:".toList (wsStar r2)).bind fun r3 =>
  (span1 is_space r3).bind fun s1 =>
  (span1 Char.isDigit s1.2).bind fun s2 =>
  (span1 is_space s2.2).bind fun s3 =>
  (stripLit "MHz".toList s3.2).bind fun _ =>
  some s2.1

/-- Leftmost search with GPU_FREQ_RE. -/
def searchGpuFreq : List Char → Option (List Char)
  | [] => none
  | c :: rest =>
    match matchGpuFreqAt (c :: rest) with
    | some r => some r
    | none => searchGpuFreq rest

/-- Matcher for OUT_REGEX at one start position. -/
def matchOutAt (l : List Char) : Option (List Char × List Char) :=
  (stripLit "out:".toList l).bind fun r1 =>
  (span1 isDigitDot (wsStar r1)).bind fun s1 =>
  (stripLit "packets/s,".toList (wsStar s1.2)).bind fun r3 =>
  (span1 isDigitDot (wsStar r3)).bind fun s2 =>
  (stripLit "bytes/s".toList (wsStar s2.2)).bind fun _ =>
  some (s1.1, s2.1)

/-- Leftmost search with OUT_REGEX. -/
def searchOut : List Char → Option (List Char × List Char)
  | [] => none
  | c :: rest =>
    match matchOutAt (c :: rest) with
    | some r => some r
    | none => searchOut rest

/-- Matcher for IN_REGEX at one start position. -/
def matchInAt (l : List Char) : Option (List Char × List Char) :=
  (stripLit "in:".toList l).bind fun r1 =>
  (span1 isDigitDot (wsStar r1)).bind fun s1 =>
  (stripLit "packets/s,".toList (wsStar s1.2)).bind fun r3 =>
  (span1 isDigitDot (wsStar r3)).bind fun s2 =>
  (stripLit "bytes/s".toList (wsStar s2.2)).bind fun _ =>
  some (s1.1, s2.1)

/-- Leftmost search with IN_REGEX. -/
def searchIn : List Char → Option (List Char × List Char)
  | [] => none
  | c :: rest =>
    match matchInAt (c :: rest) with
    | some r => some r
    | none => searchIn rest

/-- Matcher for READ_REGEX at one start position. -/
def matchReadAt (l : List Char) : Option (List Char × List Char) :=
  (stripLit "read:".toList l).bind fun r1 =>
  (span1 isDigitDot (wsStar r1)).bind fun s1 =>
  (stripLit "ops/s".toList (wsStar s1.2)).bind fun r3 =>
  (span1 isDigitDot (wsStar r3)).bind fun s2 =>
  (stripLit "KBytes/s".toList (wsStar s2.2)).bind fun _ =>
  some (s1.1, s2.1)

/-- Leftmost search with READ_REGEX. -/
def searchRead : List Char → Option (List Char × List Char)
  | [] => none
  | c :: rest =>
    match matchReadAt (c :: rest) with
    | some r => some r
    | none => searchRead rest

/-- Matcher for WRITE_REGEX at one start position. -/
def matchWriteAt (l : List Char) : Option (List Char × List Char) :=
  (stripLit "write:".toList l).bind fun r1 =>
  (span1 isDigitDot (wsStar r1)).bind fun s1 =>
  (stripLit "ops/s,".toList (wsStar s1.2)).bind fun r3 =>
  (span1 isDigitDot (wsStar r3)).bind fun s2 =>
  (stripLit "KBytes/s".toList (wsStar s2.2)).bind fun _ =>
  some (s1.1, s2.1)

/-- Leftmost search with WRITE_REGEX. -/
def searchWrite : List Char → Option (List Char × List Char)
  | [] => none
  | c :: rest =>
    match matchWriteAt (c :: rest) with
    | some r => some r
    | none => searchWrite rest

/-- First block of parse_cpu_metrics (src/main.rs:656): the cluster
residency regex. -/
def residency_step (line : List Char) (cpu : CPUMetrics) : CPUMetrics :=
  match searchResidency line with
  | some (cluster, pct) =>
    let percent : ℚ := (parseF64 pct).getD 0
    if cluster = "E-Cluster".toList ∨ cluster = "E0-Cluster".toList then
      { cpu with e_cluster_active := f64_as_i32 percent }
    else if cluster = "P-Cluster".toList ∨ cluster = "P0-Cluster".toList then
      { cpu with p_cluster_active := f64_as_i32 percent }
    else cpu
  | none => cpu

/-- Second block of parse_cpu_metrics (src/main.rs:666): the cluster
frequency regex. -/
def frequency_step (line : List Char) (cpu : CPUMetrics) : CPUMetrics :=
  match searchFrequency line with
  | some (cluster, freqTxt) =>
    let freq_mhz : Int := (parseI32 freqTxt).getD 0
    if cluster = "E-Cluster".toList ∨ cluster = "E0-Cluster".toList then
      { cpu with e_cluster_freq_mhz := freq_mhz }
    else if cluster = "P-Cluster".toList ∨ cluster = "P0-Cluster".toList then
      { cpu with p_cluster_freq_mhz := freq_mhz }
    else cpu
  | none => cpu

/-- Third block of parse_cpu_metrics (src/main.rs:676): the power-line
substring dispatch. -/
def power_step (line : List Char) (cpu : CPUMetrics) : CPUMetrics :=
  if containsSub "ANE Power".toList line then
    let parts := splitWs line
    if 3 ≤ parts.length then
      { cpu with ane_w := (parseF64 (trimEndMW (parts.getD 2 []))).getD 0 / 1000 }
    else cpu
  else if containsSub "CPU Power".toList line then
    let parts := splitWs line
    if 3 ≤ parts.length then
      { cpu with cpu_w := (parseF64 (trimEndMW (parts.getD 2 []))).getD 0 / 1000 }
    else cpu
  else if containsSub "GPU Power".toList line then
    let parts := splitWs line
    if 3 ≤ parts.length then
      { cpu with gpu_w := (parseF64 (trimEndMW (parts.getD 2 []))).getD 0 / 1000 }
    else cpu
  else if containsSub "Combined Power (CPU + GPU + ANE)".toList line then
    let parts := splitWs line
    if 8 ≤ parts.length then
      { cpu with package_w := (parseF64 (trimEndMW (parts.getD 7 []))).getD 0 / 1000 }
    else cpu
  else cpu

/-- Translation of parse_cpu_metrics (src/main.rs:655): the three blocks
applied in source order to the mutable record. -/
def parse_cpu_metrics (line : List Char) (cpu : CPUMetrics) : CPUMetrics :=
  power_step line (frequency_step line (residency_step line cpu))

/-- First block of parse_gpu_metrics (src/main.rs:701). -/
def gpu_active_step (line : List Char) (g : GPUMetrics) : GPUMetrics :=
  match searchGpuActive line with
  | some pct => { g with active := (parseF64 pct).getD 0 }
  | none => g

/-- Second block of parse_gpu_metrics (src/main.rs:706). -/
def gpu_freq_step (line : List Char) (g : GPUMetrics) : GPUMetrics :=
  match searchGpuFreq line with
  | some freqTxt => { g with freq_mhz := (parseI32 freqTxt).getD 0 }
  | none => g

/-- Translation of parse_gpu_metrics (src/main.rs:700). -/
def parse_gpu_metrics (line : List Char) (g : GPUMetrics) : GPUMetrics :=
  gpu_freq_step line (gpu_active_step line g)

/-- First block of parse_netdisk_metrics (src/main.rs:713). -/
def out_step (line : List Char) (m : NetDiskMetrics) : NetDiskMetrics :=
  match searchOut line with
  | some (p, b) =>
    { m with out_packets_per_sec := (parseF64 p).getD 0,
             out_bytes_per_sec := (parseF64 b).getD 0 }
  | none => m

/-- Second block of parse_netdisk_metrics (src/main.rs:718). -/
def in_step (line : List Char) (m : NetDiskMetrics) : NetDiskMetrics :=
  match searchIn line with
  | some (p, b) =>
    { m with in_packets_per_sec := (parseF64 p).getD 0,
             in_bytes_per_sec := (parseF64 b).getD 0 }
  | none => m

/-- Third block of parse_netdisk_metrics (src/main.rs:723). -/
def read_step (line : List Char) (m : NetDiskMetrics) : NetDiskMetrics :=
  match searchRead line with
  | some (p, b) =>
    { m with read_ops_per_sec := (parseF64 p).getD 0,
             read_kbytes_per_sec := (parseF64 b).getD 0 }
  | none => m

/-- Fourth block of parse_netdisk_metrics (src/main.rs:728). -/
def write_step (line : List Char) (m : NetDiskMetrics) : NetDiskMetrics :=
  match searchWrite line with
  | some (p, b) =>
    { m with write_ops_per_sec := (parseF64 p).getD 0,
             write_kbytes_per_sec := (parseF64 b).getD 0 }
  | none => m

/-- Translation of parse_netdisk_metrics (src/main.rs:712). -/
def parse_netdisk_metrics (line : List Char) (m : NetDiskMetrics) : NetDiskMetrics :=
  write_step line (read_step line (in_step line (out_step line m)))

/-- One iteration of the producer loop body of collect_metrics
(src/main.rs:639): parse the line with all three parsers, append the
current utilization samples to the rolling windows, and return the
states whose clones are sent on the three channels. -/
def collect_step (now : ℚ) (line : List Char) (cpu : CPUMetrics) (gpu : GPUMetrics)
    (nd : NetDiskMetrics) : CPUMetrics × GPUMetrics × NetDiskMetrics :=
  let cpu1 := parse_cpu_metrics line cpu
  let gpu1 := parse_gpu_metrics line gpu
  let nd1 := parse_netdisk_metrics line nd
  let cpu2 := cpu1.append_e_cluster_active now cpu1.e_cluster_active
  let cpu3 := cpu2.append_p_cluster_active now cpu2.p_cluster_active
  let cpu4 := cpu3.append_ane_w now (ratClamp (cpu3.ane_w * 100 / 8) 0 100)
  let gpu2 := gpu1.append_active now gpu1.active
  (cpu4, gpu2, nd1)

/-- Consumer-side drain of one channel (src/main.rs:264): the while-let
try_recv loop keeps overwriting the retained record with the next pending
snapshot, so only the last pending snapshot survives. -/
def drain_channel {α : Type} (retained : α) : List α → α
  | [] => retained
  | m :: rest => drain_channel m rest

/-- Inputs of the host_statistics64 call of get_memory_metrics. -/
structure VMStats where
  active_count : Nat
  wire_count : Nat
  compressor_page_count : Nat
deriving DecidableEq

/-- Translation of the MemoryMetrics record (src/main.rs:143). -/
structure MemoryMetrics where
  total : Nat
  used : Nat
  swap_total : Nat
  swap_used : Nat
  used_percent : ℚ
  used_percent_history : List (ℚ × ℚ)
deriving DecidableEq

/-- Translation of get_memory_metrics (src/main.rs:734) over the results of
its three external queries: the host_statistics64 call (none models a
nonzero result code), the physical-memory sysctl and the swap query (whose
failure is substituted by zeros).  Page counts are scaled by the page size,
used memory is active plus wired plus compressed, and the used percent is
the swap-inclusive ratio, or 0 when the denominator is 0. -/
def get_memory_metrics (host_stats : Option VMStats) (page_size : Nat)
    (total_mem : Option Nat) (swap : Option (Nat × Nat × Nat)) : MemoryMetrics :=
  match host_stats with
  | none =>
    { total := 0, used := 0, swap_total := 0, swap_used := 0,
      used_percent := 0, used_percent_history := [] }
  | some vm =>
    let active := vm.active_count * page_size
    let wired := vm.wire_count * page_size
    let compressed := vm.compressor_page_count * page_size
    match total_mem with
    | none =>
      { total := 0, used := 0, swap_total := 0, swap_used := 0,
        used_percent := 0, used_percent_history := [] }
    | some total =>
      let used := active + wired + compressed
      let swapVals := match swap with | some tuf => tuf | none => (0, 0, 0)
      let swap_total := swapVals.1
      let swap_used := swapVals.2.1
      let total_with_swap := total + swap_total
      let used_with_swap := used + swap_used
      let used_percent : ℚ :=
        if 0 < total_with_swap then ((used_with_swap : ℚ) / (total_with_swap : ℚ)) * 100 else 0
      { total := total_with_swap, used := used_with_swap, swap_total := swap_total,
        swap_used := swap_used, used_percent := used_percent, used_percent_history := [] }

/-- Shape of a cluster residency line with a decimal percent, as emitted by
powermetrics and described by the spec pattern table. -/
def resLine (c : List Char) (a b : List Char) : List Char :=
  c ++ " HW active residency: ".toList ++ a ++ '.' :: b ++ ['%']

/-- Shape of a cluster residency line whose percent is a plain integer. -/
def intResLine (c : List Char) (d : List Char) : List Char :=
  c ++ " HW active residency: ".toList ++ d ++ ['%']

/-- Exact value of the decimal literal a.b. -/
def decValue (a b : List Char) : ℚ :=
  (natOfDigits a : ℚ) + (natOfDigits b : ℚ) / (10 : ℚ) ^ b.length

/-! Infrastructure lemmas about the combinators. -/

theorem stripLit_append (p r : List Char) : stripLit p (p ++ r) = some r := by
  induction p with
  | nil => rfl
  | cons c cs ih => simp [stripLit, ih]

theorem stripLit_parts {p l r : List Char} (h : stripLit p l = some r) : l = p ++ r := by
  induction p generalizing l with
  | nil => simp [stripLit] at h; simp [h]
  | cons c cs ih =>
    cases l with
    | nil => simp [stripLit] at h
    | cons d ds =>
      by_cases hd : d = c
      · simp only [stripLit, if_pos hd] at h
        simp [hd, ih h]
      · simp [stripLit, hd] at h

theorem takeWhile_all {p : Char → Bool} {l : List Char} (h : ∀ x ∈ l, p x = true) :
    l.takeWhile p = l := by
  induction l with
  | nil => rfl
  | cons c cs ih =>
    simp [List.takeWhile_cons, h c (by simp), ih (fun x hx => h x (by simp [hx]))]

theorem dropWhile_all {p : Char → Bool} {l : List Char} (h : ∀ x ∈ l, p x = true) :
    l.dropWhile p = [] := by
  induction l with
  | nil => rfl
  | cons c cs ih =>
    simp [List.dropWhile_cons, h c (by simp), ih (fun x hx => h x (by simp [hx]))]

theorem takeWhile_append1 {p : Char → Bool} {t : List Char} {x : Char} {r : List Char}
    (ht : ∀ y ∈ t, p y = true) (hx : p x = false) : (t ++ x :: r).takeWhile p = t := by
  induction t with
  | nil => simp [List.takeWhile_cons, hx]
  | cons c cs ih =>
    simp [List.takeWhile_cons, ht c (by simp), ih (fun y hy => ht y (by simp [hy]))]

theorem dropWhile_append1 {p : Char → Bool} {t : List Char} {x : Char} {r : List Char}
    (ht : ∀ y ∈ t, p y = true) (hx : p x = false) : (t ++ x :: r).dropWhile p = x :: r := by
  induction t with
  | nil => simp [List.dropWhile_cons, hx]
  | cons c cs ih =>
    simp [List.dropWhile_cons, ht c (by simp), ih (fun y hy => ht y (by simp [hy]))]

theorem span1_append {p : Char → Bool} (t : List Char) (x : Char) (r : List Char)
    (ht : t ≠ []) (hall : ∀ y ∈ t, p y = true) (hx : p x = false) :
    span1 p (t ++ x :: r) = some (t, x :: r) := by
  simp [span1, takeWhile_append1 hall hx, dropWhile_append1 hall hx, ht]

theorem span1_parts {p : Char → Bool} {l : List Char} {s : List Char × List Char}
    (h : span1 p l = some s) : l = s.1 ++ s.2 := by
  simp only [span1] at h
  split at h
  · exact absurd h (by simp)
  · obtain ⟨h1, h2⟩ := Prod.mk.injEq .. ▸ Option.some.inj h
    rw [← h1, ← h2]
    exact (List.takeWhile_append_dropWhile p l).symm

theorem mem_of_stripLit_lit {p l r : List Char} (h : stripLit p l = some r) {x : Char}
    (hx : x ∈ p) : x ∈ l := by
  rw [stripLit_parts h]; exact List.mem_append_left _ hx

theorem mem_of_stripLit_rest {p l r : List Char} (h : stripLit p l = some r) {x : Char}
    (hx : x ∈ r) : x ∈ l := by
  rw [stripLit_parts h]; exact List.mem_append_right _ hx

theorem mem_of_span1_rest {p : Char → Bool} {l : List Char} {s : List Char × List Char}
    (h : span1 p l = some s) {x : Char} (hx : x ∈ s.2) : x ∈ l := by
  rw [span1_parts h]; exact List.mem_append_right _ hx

theorem mem_of_wsStar {l : List Char} {x : Char} (hx : x ∈ wsStar l) : x ∈ l := by
  have e := List.takeWhile_append_dropWhile is_space l
  rw [← e]
  exact List.mem_append_right _ hx

theorem mem_of_optHW {l : List Char} {x : Char} (hx : x ∈ optHW l) : x ∈ l := by
  cases l with
  | nil => exact hx
  | cons a l1 =>
    cases l1 with
    | nil => exact hx
    | cons b l2 =>
      by_cases h : a = 'H' ∧ b = 'W'
      · simp only [optHW, if_pos h] at hx
        simp [hx]
      · simpa only [optHW, if_neg h] using hx

theorem isPrefixOf_mem {n l : List Char} (h : n.isPrefixOf l = true) {x : Char}
    (hx : x ∈ n) : x ∈ l := by
  induction n generalizing l with
  | nil => simp at hx
  | cons a as ih =>
    cases l with
    | nil => simp [List.isPrefixOf] at h
    | cons b bs =>
      simp only [List.isPrefixOf, Bool.and_eq_true, beq_iff_eq] at h
      obtain ⟨hab, hrest⟩ := h
      rcases List.mem_cons.mp hx with h1 | h1
      · rw [h1, hab]; exact List.mem_cons_self _ _
      · exact List.mem_cons_of_mem _ (ih hrest h1)

theorem containsSub_mem {n h : List Char} (hc : containsSub n h = true) {x : Char}
    (hx : x ∈ n) : x ∈ h := by
  induction h with
  | nil =>
    simp only [containsSub] at hc
    rw [List.isEmpty_iff.mp hc] at hx
    simp at hx
  | cons c rest ih =>
    simp only [containsSub, Bool.or_eq_true] at hc
    rcases hc with h1 | h1
    · exact isPrefixOf_mem h1 hx
    · exact List.mem_cons_of_mem _ (ih h1)

theorem containsSub_eq_false {n h : List Char} {x : Char} (hx : x ∈ n) (hh : x ∉ h) :
    containsSub n h = false := by
  cases e : containsSub n h
  · rfl
  · exact absurd (containsSub_mem e hx) hh

theorem isDigit_ne {c : Char} (h : c.isDigit = true) {d : Char} (hd : d.isDigit = false) :
    c ≠ d := by
  intro e
  rw [e, hd] at h
  exact Bool.false_ne_true h

theorem isDigit_not_space {c : Char} (h : c.isDigit = true) : is_space c = false := by
  cases e : is_space c
  · rfl
  · exfalso
    simp only [is_space, Bool.or_eq_true, decide_eq_true_eq] at e
    rcases e with ((((e1 | e1) | e1) | e1) | e1) | e1 <;> rw [e1] at h <;>
      exact absurd h (by decide)

theorem parseF64_eq_core {c : Char} {r : List Char} (h1 : c ≠ '+') (h2 : c ≠ '-') :
    parseF64 (c :: r) = parseF64core (c :: r) := by
  simp [parseF64, h1, h2]

theorem parseF64core_digits {l : List Char} (h1 : l ≠ [])
    (h2 : ∀ x ∈ l, x.isDigit = true) : parseF64core l = some ((natOfDigits l : ℚ)) := by
  simp only [parseF64core, takeWhile_all h2, dropWhile_all h2]
  simp [h1]

theorem parseF64_digits {l : List Char} (h1 : l ≠ [])
    (h2 : ∀ x ∈ l, x.isDigit = true) : parseF64 l = some ((natOfDigits l : ℚ)) := by
  cases l with
  | nil => exact absurd rfl h1
  | cons c r =>
    have hc : c.isDigit = true := h2 c (by simp)
    rw [parseF64_eq_core (isDigit_ne hc (by decide)) (isDigit_ne hc (by decide))]
    exact parseF64core_digits (by simp) h2

theorem parseF64core_decimal {a b : List Char} (ha1 : a ≠ [])
    (ha2 : ∀ x ∈ a, x.isDigit = true) (hb2 : ∀ x ∈ b, x.isDigit = true) :
    parseF64core (a ++ '.' :: b) = some (decValue a b) := by
  have hdot : Char.isDigit '.' = false := by decide
  simp only [parseF64core]
  rw [takeWhile_append1 ha2 hdot, dropWhile_append1 ha2 hdot]
  dsimp only
  rw [if_pos rfl, takeWhile_all hb2, dropWhile_all hb2, if_neg (by simp [ha1])]
  simp [parseExpPart, decValue]

theorem parseF64_decimal {a b : List Char} (ha1 : a ≠ [])
    (ha2 : ∀ x ∈ a, x.isDigit = true) (hb2 : ∀ x ∈ b, x.isDigit = true) :
    parseF64 (a ++ '.' :: b) = some (decValue a b) := by
  cases a with
  | nil => exact absurd rfl ha1
  | cons c a0 =>
    have hc : c.isDigit = true := ha2 c (by simp)
    rw [List.cons_append,
      parseF64_eq_core (isDigit_ne hc (by decide)) (isDigit_ne hc (by decide)),
      ← List.cons_append]
    exact parseF64core_decimal ha1 ha2 hb2

theorem matchResidencyAt_line (w a b rest : List Char) (hw1 : w ≠ [])
    (hw2 : ∀ x ∈ w, isWordChar x = true) (ha1 : a ≠ [])
    (ha2 : ∀ x ∈ a, x.isDigit = true) (hb1 : b ≠ [])
    (hb2 : ∀ x ∈ b, x.isDigit = true) :
    matchResidencyAt (w ++ '-' :: ("Cluster".toList ++ (' ' ::
        ("HW active residency:".toList ++ (' ' ::
          (a ++ ('.' :: (b ++ ('%' :: rest))))))))) =
      some (w ++ "-Cluster".toList, a ++ '.' :: b) := by
  obtain ⟨d, a0, rfl⟩ : ∃ d a0, a = d :: a0 := by
    cases a with
    | nil => exact absurd rfl ha1
    | cons d a0 => exact ⟨d, a0, rfl⟩
  obtain ⟨e, b0, rfl⟩ : ∃ e b0, b = e :: b0 := by
    cases b with
    | nil => exact absurd rfl hb1
    | cons e b0 => exact ⟨e, b0, rfl⟩
  have hd : d.isDigit = true := ha2 d (by simp)
  have he : e.isDigit = true := hb2 e (by simp)
  have h1 : span1 isWordChar (w ++ '-' :: ("Cluster".toList ++ (' ' ::
        ("HW active residency:".toList ++ (' ' ::
          ((d :: a0) ++ ('.' :: ((e :: b0) ++ ('%' :: rest))))))))) =
      some (w, "-Cluster".toList ++ (' ' :: ("HW active residency:".toList ++ (' ' ::
        ((d :: a0) ++ ('.' :: ((e :: b0) ++ ('%' :: rest)))))))) :=
    span1_append w '-' _ hw1 hw2 (by decide)
  have h2 : stripLit "-Cluster".toList ("-Cluster".toList ++ (' ' ::
        ("HW active residency:".toList ++ (' ' ::
          ((d :: a0) ++ ('.' :: ((e :: b0) ++ ('%' :: rest)))))))) =
      some (' ' :: ("HW active residency:".toList ++ (' ' ::
        ((d :: a0) ++ ('.' :: ((e :: b0) ++ ('%' :: rest))))))) :=
    stripLit_append _ _
  have h3 : span1 is_space (' ' :: ("HW active residency:".toList ++ (' ' ::
        ((d :: a0) ++ ('.' :: ((e :: b0) ++ ('%' :: rest))))))) =
      some ([' '], "HW active residency:".toList ++ (' ' ::
        ((d :: a0) ++ ('.' :: ((e :: b0) ++ ('%' :: rest)))))) :=
    span1_append [' '] 'H' _ (by decide) (by decide) (by decide)
  have h4 : stripLit "HW active residency:".toList ("HW active residency:".toList ++ (' ' ::
        ((d :: a0) ++ ('.' :: ((e :: b0) ++ ('%' :: rest)))))) =
      some (' ' :: ((d :: a0) ++ ('.' :: ((e :: b0) ++ ('%' :: rest))))) :=
    stripLit_append _ _
  have h5 : span1 is_space (' ' :: ((d :: a0) ++ ('.' :: ((e :: b0) ++ ('%' :: rest))))) =
      some ([' '], (d :: a0) ++ ('.' :: ((e :: b0) ++ ('%' :: rest)))) :=
    span1_append [' '] d _ (by decide) (by decide) (isDigit_not_space hd)
  have h6 : span1 Char.isDigit ((d :: a0) ++ ('.' :: ((e :: b0) ++ ('%' :: rest)))) =
      some (d :: a0, '.' :: ((e :: b0) ++ ('%' :: rest))) :=
    span1_append (d :: a0) '.' _ (by simp) ha2 (by decide)
  have h7 : stripLit ".".toList ('.' :: ((e :: b0) ++ ('%' :: rest))) =
      some ((e :: b0) ++ ('%' :: rest)) :=
    stripLit_append _ _
  have h8 : span1 Char.isDigit ((e :: b0) ++ ('%' :: rest)) =
      some (e :: b0, '%' :: rest) :=
    span1_append (e :: b0) '%' _ (by simp) hb2 (by decide)
  have h9 : stripLit "%".toList ('%' :: rest) = some rest := stripLit_append _ _
  simp only [matchResidencyAt]
  rw [h1]; dsimp only [Option.bind]
  rw [h2]; dsimp only [Option.bind]
  rw [h3]; dsimp only [Option.bind]
  rw [h4]; dsimp only [Option.bind]
  rw [h5]; dsimp only [Option.bind]
  rw [h6]; dsimp only [Option.bind]
  rw [h7]; dsimp only [Option.bind]
  rw [h8]; dsimp only [Option.bind]
  rw [h9]

theorem searchResidency_pos {l : List Char} {r : List Char × List Char} (h1 : l ≠ [])
    (h2 : matchResidencyAt l = some r) : searchResidency l = some r := by
  cases l with
  | nil => exact absurd rfl h1
  | cons c rest => simp [searchResidency, h2]

theorem matchResidencyAt_dot {l : List Char} {r : List Char × List Char}
    (h : matchResidencyAt l = some r) : '.' ∈ l := by
  simp only [matchResidencyAt, Option.bind_eq_some] at h
  obtain ⟨s1, hs1, r2, hr2, s2, hs2, r4, hr4, s3, hs3, s4, hs4, r7, hr7, s5, hs5, r9, hr9, -⟩ := h
  exact mem_of_span1_rest hs1 (mem_of_stripLit_rest hr2 (mem_of_span1_rest hs2
    (mem_of_stripLit_rest hr4 (mem_of_span1_rest hs3 (mem_of_span1_rest hs4
      (mem_of_stripLit_lit hr7 (by decide)))))))

theorem searchResidency_none {l : List Char} (h : '.' ∉ l) : searchResidency l = none := by
  induction l with
  | nil => rfl
  | cons c rest ih =>
    cases e : matchResidencyAt (c :: rest) with
    | some r => exact absurd (matchResidencyAt_dot e) h
    | none =>
      simp only [searchResidency, e]
      exact ih (fun hm => h (List.mem_cons_of_mem _ hm))

theorem matchFrequencyAt_q {l : List Char} {r : List Char × List Char}
    (h : matchFrequencyAt l = some r) : 'q' ∈ l := by
  simp only [matchFrequencyAt, Option.bind_eq_some] at h
  obtain ⟨s1, hs1, r2, hr2, s2, hs2, r4, hr4, s3, hs3, s4, hs4, s5, hs5, r8, hr8, -⟩ := h
  exact mem_of_span1_rest hs1 (mem_of_stripLit_rest hr2 (mem_of_span1_rest hs2
    (mem_of_stripLit_lit hr4 (by decide))))

theorem searchFrequency_none {l : List Char} (h : 'q' ∉ l) : searchFrequency l = none := by
  induction l with
  | nil => rfl
  | cons c rest ih =>
    cases e : matchFrequencyAt (c :: rest) with
    | some r => exact absurd (matchFrequencyAt_q e) h
    | none =>
      simp only [searchFrequency, e]
      exact ih (fun hm => h (List.mem_cons_of_mem _ hm))

theorem matchGpuActiveAt_dot {l : List Char} {r : List Char}
    (h : matchGpuActiveAt l = some r) : '.' ∈ l := by
  simp only [matchGpuActiveAt, Option.bind_eq_some] at h
  obtain ⟨r1, hr1, r2, hr2, r3, hr3, s1, hs1, s2, hs2, r6, hr6, s3, hs3, r8, hr8, -⟩ := h
  exact mem_of_stripLit_rest hr1 (mem_of_wsStar (mem_of_optHW (mem_of_wsStar
    (mem_of_stripLit_rest hr2 (mem_of_wsStar (mem_of_stripLit_rest hr3
      (mem_of_span1_rest hs1 (mem_of_span1_rest hs2
        (mem_of_stripLit_lit hr6 (by decide))))))))))

theorem searchGpuActive_none {l : List Char} (h : '.' ∉ l) : searchGpuActive l = none := by
  induction l with
  | nil => rfl
  | cons c rest ih =>
    cases e : matchGpuActiveAt (c :: rest) with
    | some r => exact absurd (matchGpuActiveAt_dot e) h
    | none =>
      simp only [searchGpuActive, e]
      exact ih (fun hm => h (List.mem_cons_of_mem _ hm))

theorem matchGpuFreqAt_q {l : List Char} {r : List Char}
    (h : matchGpuFreqAt l = some r) : 'q' ∈ l := by
  simp only [matchGpuFreqAt, Option.bind_eq_some] at h
  obtain ⟨r1, hr1, r2, hr2, r3, hr3, s1, hs1, s2, hs2, s3, hs3, r7, hr7, -⟩ := h
  exact mem_of_stripLit_rest hr1 (mem_of_wsStar (mem_of_optHW (mem_of_wsStar
    (mem_of_stripLit_rest hr2 (mem_of_wsStar (mem_of_stripLit_lit hr3 (by decide)))))))

theorem searchGpuFreq_none {l : List Char} (h : 'q' ∉ l) : searchGpuFreq l = none := by
  induction l with
  | nil => rfl
  | cons c rest ih =>
    cases e : matchGpuFreqAt (c :: rest) with
    | some r => exact absurd (matchGpuFreqAt_q e) h
    | none =>
      simp only [searchGpuFreq, e]
      exact ih (fun hm => h (List.mem_cons_of_mem _ hm))

theorem digit_list_not_mem {a : List Char} (h : ∀ x ∈ a, x.isDigit = true) {d : Char}
    (hd : d.isDigit = false) : d ∉ a := by
  intro hm
  rw [h d hm] at hd
  exact absurd hd (by decide)

theorem not_mem_resLine {ch : Char} {c a b : List Char} (hc : ch ∉ c)
    (ht : ch ∉ " HW active residency: ".toList) (ha : ch ∉ a) (hb : ch ∉ b)
    (hd : ch ≠ '.') (hp : ch ≠ '%') : ch ∉ resLine c a b := by
  intro h
  simp only [resLine, List.mem_append, List.mem_cons, List.mem_singleton,
    List.not_mem_nil] at h
  tauto

theorem not_mem_intResLine {ch : Char} {c d : List Char} (hc : ch ∉ c)
    (ht : ch ∉ " HW active residency: ".toList) (hd : ch ∉ d) (hp : ch ≠ '%') :
    ch ∉ intResLine c d := by
  intro h
  simp only [intResLine, List.mem_append, List.mem_cons, List.mem_singleton,
    List.not_mem_nil] at h
  tauto

theorem residency_step_of_none {line : List Char} {m : CPUMetrics}
    (h : searchResidency line = none) : residency_step line m = m := by
  simp [residency_step, h]

theorem frequency_step_of_none {line : List Char} {m : CPUMetrics}
    (h : searchFrequency line = none) : frequency_step line m = m := by
  simp [frequency_step, h]

theorem power_step_of_not {line : List Char} {m : CPUMetrics}
    (h1 : containsSub "ANE Power".toList line = false)
    (h2 : containsSub "CPU Power".toList line = false)
    (h3 : containsSub "GPU Power".toList line = false)
    (h4 : containsSub "Combined Power (CPU + GPU + ANE)".toList line = false) :
    power_step line m = m := by
  unfold power_step
  rw [h1, h2, h3, h4]
  simp

theorem parse_cpu_eq_residency {line : List Char} {m : CPUMetrics}
    (hf : searchFrequency line = none)
    (h1 : containsSub "ANE Power".toList line = false)
    (h2 : containsSub "CPU Power".toList line = false)
    (h3 : containsSub "GPU Power".toList line = false)
    (h4 : containsSub "Combined Power (CPU + GPU + ANE)".toList line = false) :
    parse_cpu_metrics line m = residency_step line m := by
  simp only [parse_cpu_metrics, frequency_step_of_none hf,
    power_step_of_not h1 h2 h3 h4]

theorem parse_cpu_metrics_of_none {line : List Char} {m : CPUMetrics}
    (h0 : searchResidency line = none) (hf : searchFrequency line = none)
    (h1 : containsSub "ANE Power".toList line = false)
    (h2 : containsSub "CPU Power".toList line = false)
    (h3 : containsSub "GPU Power".toList line = false)
    (h4 : containsSub "Combined Power (CPU + GPU + ANE)".toList line = false) :
    parse_cpu_metrics line m = m := by
  simp only [parse_cpu_eq_residency hf h1 h2 h3 h4, residency_step_of_none h0]

theorem parse_gpu_metrics_of_none {line : List Char} {g : GPUMetrics}
    (h1 : searchGpuActive line = none) (h2 : searchGpuFreq line = none) :
    parse_gpu_metrics line g = g := by
  simp [parse_gpu_metrics, gpu_active_step, gpu_freq_step, h1, h2]

theorem resLine_shape (w a b : List Char) :
    resLine (w ++ "-Cluster".toList) a b = w ++ '-' :: ("Cluster".toList ++ (' ' ::
      ("HW active residency:".toList ++ (' ' ::
        (a ++ ('.' :: (b ++ ('%' :: [])))))))) := by
  simp only [resLine, List.append_assoc]
  rfl

theorem decValue_nonneg (a b : List Char) : 0 ≤ decValue a b := by
  unfold decValue
  positivity

theorem f64_as_i32_eq_floor {q : ℚ} (h0 : 0 ≤ q) (hle : ⌊q⌋ ≤ 2147483647) :
    f64_as_i32 q = ⌊q⌋ := by
  have h1 : (0 : ℤ) ≤ ⌊q⌋ := Int.floor_nonneg.mpr h0
  simp only [f64_as_i32, ratTrunc, if_pos h0]
  rw [min_eq_right hle, max_eq_right (by omega)]

theorem parse_resLine_general (w a b : List Char) (m : CPUMetrics) (hw1 : w ≠ [])
    (hw2 : ∀ x ∈ w, isWordChar x = true) (hwq : 'q' ∉ w) (hww : 'w' ∉ w)
    (ha1 : a ≠ []) (ha2 : ∀ x ∈ a, x.isDigit = true)
    (hb1 : b ≠ []) (hb2 : ∀ x ∈ b, x.isDigit = true) :
    parse_cpu_metrics (resLine (w ++ "-Cluster".toList) a b) m =
      residency_step (resLine (w ++ "-Cluster".toList) a b) m ∧
    searchResidency (resLine (w ++ "-Cluster".toList) a b) =
      some (w ++ "-Cluster".toList, a ++ '.' :: b) := by
  have hqc : 'q' ∉ w ++ "-Cluster".toList := by
    intro hm
    rcases List.mem_append.mp hm with hm1 | hm1
    · exact hwq hm1
    · exact absurd hm1 (by decide)
  have hwc : 'w' ∉ w ++ "-Cluster".toList := by
    intro hm
    rcases List.mem_append.mp hm with hm1 | hm1
    · exact hww hm1
    · exact absurd hm1 (by decide)
  have hql : 'q' ∉ resLine (w ++ "-Cluster".toList) a b :=
    not_mem_resLine hqc (by decide) (digit_list_not_mem ha2 (by decide))
      (digit_list_not_mem hb2 (by decide)) (by decide) (by decide)
  have hwl : 'w' ∉ resLine (w ++ "-Cluster".toList) a b :=
    not_mem_resLine hwc (by decide) (digit_list_not_mem ha2 (by decide))
      (digit_list_not_mem hb2 (by decide)) (by decide) (by decide)
  constructor
  · exact parse_cpu_eq_residency (searchFrequency_none hql)
      (containsSub_eq_false (by decide) hwl) (containsSub_eq_false (by decide) hwl)
      (containsSub_eq_false (by decide) hwl) (containsSub_eq_false (by decide) hwl)
  · have hne : resLine (w ++ "-Cluster".toList) a b ≠ [] := by
      simp [resLine]
    refine searchResidency_pos hne ?_
    rw [resLine_shape]
    exact matchResidencyAt_line w a b [] hw1 hw2 ha1 ha2 hb1 hb2

theorem intResLine_unchanged (c d : List Char) (m : CPUMetrics) (g : GPUMetrics)
    (hcq : 'q' ∉ c) (hcw : 'w' ∉ c) (hcd : '.' ∉ c)
    (hd2 : ∀ x ∈ d, x.isDigit = true) :
    searchResidency (intResLine c d) = none ∧
    searchGpuActive (intResLine c d) = none ∧
    parse_cpu_metrics (intResLine c d) m = m ∧
    parse_gpu_metrics (intResLine c d) g = g := by
  have hdot : '.' ∉ intResLine c d :=
    not_mem_intResLine hcd (by decide) (digit_list_not_mem hd2 (by decide)) (by decide)
  have hq : 'q' ∉ intResLine c d :=
    not_mem_intResLine hcq (by decide) (digit_list_not_mem hd2 (by decide)) (by decide)
  have hw : 'w' ∉ intResLine c d :=
    not_mem_intResLine hcw (by decide) (digit_list_not_mem hd2 (by decide)) (by decide)
  refine ⟨searchResidency_none hdot, searchGpuActive_none hdot, ?_, ?_⟩
  · exact parse_cpu_metrics_of_none (searchResidency_none hdot) (searchFrequency_none hq)
      (containsSub_eq_false (by decide) hw) (containsSub_eq_false (by decide) hw)
      (containsSub_eq_false (by decide) hw) (containsSub_eq_false (by decide) hw)
  · exact parse_gpu_metrics_of_none (searchGpuActive_none hdot) (searchGpuFreq_none hq)

theorem residency_step_frame (line : List Char) (m : CPUMetrics) :
    (residency_step line m).e_cluster_freq_mhz = m.e_cluster_freq_mhz ∧
    (residency_step line m).p_cluster_freq_mhz = m.p_cluster_freq_mhz ∧
    (residency_step line m).ane_w = m.ane_w ∧
    (residency_step line m).cpu_w = m.cpu_w ∧
    (residency_step line m).gpu_w = m.gpu_w ∧
    (residency_step line m).package_w = m.package_w := by
  unfold residency_step
  cases searchResidency line with
  | none => exact ⟨rfl, rfl, rfl, rfl, rfl, rfl⟩
  | some s =>
    obtain ⟨c, p⟩ := s
    dsimp only
    split_ifs <;> exact ⟨rfl, rfl, rfl, rfl, rfl, rfl⟩

theorem frequency_step_frame (line : List Char) (m : CPUMetrics) :
    (frequency_step line m).e_cluster_active = m.e_cluster_active ∧
    (frequency_step line m).p_cluster_active = m.p_cluster_active ∧
    (frequency_step line m).ane_w = m.ane_w ∧
    (frequency_step line m).cpu_w = m.cpu_w ∧
    (frequency_step line m).gpu_w = m.gpu_w ∧
    (frequency_step line m).package_w = m.package_w := by
  unfold frequency_step
  cases searchFrequency line with
  | none => exact ⟨rfl, rfl, rfl, rfl, rfl, rfl⟩
  | some s =>
    obtain ⟨c, p⟩ := s
    dsimp only
    split_ifs <;> exact ⟨rfl, rfl, rfl, rfl, rfl, rfl⟩

theorem power_step_cluster_frame (line : List Char) (m : CPUMetrics) :
    (power_step line m).e_cluster_active = m.e_cluster_active ∧
    (power_step line m).p_cluster_active = m.p_cluster_active ∧
    (power_step line m).e_cluster_freq_mhz = m.e_cluster_freq_mhz ∧
    (power_step line m).p_cluster_freq_mhz = m.p_cluster_freq_mhz := by
  unfold power_step
  dsimp only
  split_ifs <;> exact ⟨rfl, rfl, rfl, rfl⟩

theorem in_step_out_frame (line : List Char) (nd : NetDiskMetrics) :
    (in_step line nd).out_packets_per_sec = nd.out_packets_per_sec ∧
    (in_step line nd).out_bytes_per_sec = nd.out_bytes_per_sec := by
  unfold in_step
  cases hsi : searchIn line with
  | none => exact ⟨rfl, rfl⟩
  | some s => obtain ⟨pp, bb⟩ := s; exact ⟨rfl, rfl⟩

theorem read_step_out_frame (line : List Char) (nd : NetDiskMetrics) :
    (read_step line nd).out_packets_per_sec = nd.out_packets_per_sec ∧
    (read_step line nd).out_bytes_per_sec = nd.out_bytes_per_sec := by
  unfold read_step
  cases hsi : searchRead line with
  | none => exact ⟨rfl, rfl⟩
  | some s => obtain ⟨pp, bb⟩ := s; exact ⟨rfl, rfl⟩

theorem write_step_out_frame (line : List Char) (nd : NetDiskMetrics) :
    (write_step line nd).out_packets_per_sec = nd.out_packets_per_sec ∧
    (write_step line nd).out_bytes_per_sec = nd.out_bytes_per_sec := by
  unfold write_step
  cases hsi : searchWrite line with
  | none => exact ⟨rfl, rfl⟩
  | some s => obtain ⟨pp, bb⟩ := s; exact ⟨rfl, rfl⟩

theorem retain_recent_getLast {α : Type} (now : ℚ) (h : List (ℚ × α)) (v : α) :
    (retain_recent now (h ++ [(now, v)])).getLast? = some (now, v) := by
  induction h with
  | nil =>
    rw [List.nil_append]
    unfold retain_recent
    rw [if_neg (by linarith)]
    rfl
  | cons p t ih =>
    obtain ⟨tt, vv⟩ := p
    rw [List.cons_append]
    unfold retain_recent
    by_cases hc : tt < now - 120
    · rw [if_pos hc]
      exact ih
    · rw [if_neg hc, ← List.cons_append, List.getLast?_concat]

/-- C1 (amended): for every input line of the residency shape
"<Cluster> HW active residency: P%" with a recognized cluster name
(E-Cluster/E0-Cluster or P-Cluster/P0-Cluster) and decimal percent P,
parse_cpu_metrics sets that cluster's active-percent field to floor(P)
saturated to the i32 range — equal to floor(P) whenever floor(P) is at
most 2147483647, since the value passes through the saturating cast
f64 as i32 — and leaves every other field of the CPUMetrics record at
its prior value. -/
theorem c1_residency_floor_saturated (a b : List Char) (m : CPUMetrics) (ha1 : a ≠ [])
    (ha2 : ∀ x ∈ a, x.isDigit = true) (hb1 : b ≠ []) (hb2 : ∀ x ∈ b, x.isDigit = true) :
    (parse_cpu_metrics (resLine "E-Cluster".toList a b) m =
      { m with e_cluster_active := f64_as_i32 (decValue a b) }) ∧
    (parse_cpu_metrics (resLine "E0-Cluster".toList a b) m =
      { m with e_cluster_active := f64_as_i32 (decValue a b) }) ∧
    (parse_cpu_metrics (resLine "P-Cluster".toList a b) m =
      { m with p_cluster_active := f64_as_i32 (decValue a b) }) ∧
    (parse_cpu_metrics (resLine "P0-Cluster".toList a b) m =
      { m with p_cluster_active := f64_as_i32 (decValue a b) }) ∧
    (0 ≤ decValue a b) ∧
    (⌊decValue a b⌋ ≤ 2147483647 → f64_as_i32 (decValue a b) = ⌊decValue a b⌋) := by
  have hE : parse_cpu_metrics (resLine "E-Cluster".toList a b) m =
      residency_step (resLine "E-Cluster".toList a b) m :=
    (parse_resLine_general ['E'] a b m (by decide) (by decide) (by decide) (by decide)
      ha1 ha2 hb1 hb2).1
  have hsE : searchResidency (resLine "E-Cluster".toList a b) =
      some ("E-Cluster".toList, a ++ '.' :: b) :=
    (parse_resLine_general ['E'] a b m (by decide) (by decide) (by decide) (by decide)
      ha1 ha2 hb1 hb2).2
  have hE0 : parse_cpu_metrics (resLine "E0-Cluster".toList a b) m =
      residency_step (resLine "E0-Cluster".toList a b) m :=
    (parse_resLine_general ['E', '0'] a b m (by decide) (by decide) (by decide) (by decide)
      ha1 ha2 hb1 hb2).1
  have hsE0 : searchResidency (resLine "E0-Cluster".toList a b) =
      some ("E0-Cluster".toList, a ++ '.' :: b) :=
    (parse_resLine_general ['E', '0'] a b m (by decide) (by decide) (by decide) (by decide)
      ha1 ha2 hb1 hb2).2
  have hP : parse_cpu_metrics (resLine "P-Cluster".toList a b) m =
      residency_step (resLine "P-Cluster".toList a b) m :=
    (parse_resLine_general ['P'] a b m (by decide) (by decide) (by decide) (by decide)
      ha1 ha2 hb1 hb2).1
  have hsP : searchResidency (resLine "P-Cluster".toList a b) =
      some ("P-Cluster".toList, a ++ '.' :: b) :=
    (parse_resLine_general ['P'] a b m (by decide) (by decide) (by decide) (by decide)
      ha1 ha2 hb1 hb2).2
  have hP0 : parse_cpu_metrics (resLine "P0-Cluster".toList a b) m =
      residency_step (resLine "P0-Cluster".toList a b) m :=
    (parse_resLine_general ['P', '0'] a b m (by decide) (by decide) (by decide) (by decide)
      ha1 ha2 hb1 hb2).1
  have hsP0 : searchResidency (resLine "P0-Cluster".toList a b) =
      some ("P0-Cluster".toList, a ++ '.' :: b) :=
    (parse_resLine_general ['P', '0'] a b m (by decide) (by decide) (by decide) (by decide)
      ha1 ha2 hb1 hb2).2
  refine ⟨?_, ?_, ?_, ?_, decValue_nonneg a b,
    fun hle => f64_as_i32_eq_floor (decValue_nonneg a b) hle⟩
  · rw [hE]
    unfold residency_step
    rw [hsE]
    dsimp only
    rw [if_pos (Or.inl rfl), parseF64_decimal ha1 ha2 hb2]
    rfl
  · rw [hE0]
    unfold residency_step
    rw [hsE0]
    dsimp only
    rw [if_pos (Or.inr rfl), parseF64_decimal ha1 ha2 hb2]
    rfl
  · rw [hP]
    unfold residency_step
    rw [hsP]
    dsimp only
    rw [if_neg (by decide), if_pos (Or.inl rfl), parseF64_decimal ha1 ha2 hb2]
    rfl
  · rw [hP0]
    unfold residency_step
    rw [hsP0]
    dsimp only
    rw [if_neg (by decide), if_pos (Or.inr rfl), parseF64_decimal ha1 ha2 hb2]
    rfl

/-- C1 counterexample: on the exact residency line
"E-Cluster HW active residency: 9999999999.0%", whose percent has
floor 9999999999, the stored e_cluster_active is the saturated i32
maximum 2147483647, not floor(P) as the original claim states. -/
theorem c1_counterexample :
    (parse_cpu_metrics (resLine "E-Cluster".toList "9999999999".toList "0".toList)
        CPUMetrics.new).e_cluster_active ≠
      ⌊decValue "9999999999".toList "0".toList⌋ := by
  have hp : parse_cpu_metrics (resLine "E-Cluster".toList "9999999999".toList "0".toList)
      CPUMetrics.new =
      residency_step (resLine "E-Cluster".toList "9999999999".toList "0".toList)
        CPUMetrics.new :=
    (parse_resLine_general ['E'] "9999999999".toList "0".toList CPUMetrics.new
      (by decide) (by decide) (by decide) (by decide) (by decide) (by decide)
      (by decide) (by decide)).1
  have hs : searchResidency (resLine "E-Cluster".toList "9999999999".toList "0".toList) =
      some ("E-Cluster".toList, "9999999999".toList ++ '.' :: "0".toList) :=
    (parse_resLine_general ['E'] "9999999999".toList "0".toList CPUMetrics.new
      (by decide) (by decide) (by decide) (by decide) (by decide) (by decide)
      (by decide) (by decide)).2
  have hv : decValue "9999999999".toList "0".toList = 9999999999 := by
    unfold decValue
    rw [show natOfDigits "9999999999".toList = 9999999999 from by decide,
      show natOfDigits "0".toList = 0 from by decide,
      show ("0".toList).length = 1 from by decide]
    norm_num
  rw [hp]
  unfold residency_step
  rw [hs]
  dsimp only
  rw [if_pos (Or.inl rfl),
    parseF64_decimal (by decide) (by decide) (by decide), hv]
  have hf : ⌊(9999999999 : ℚ)⌋ = 9999999999 := by
    rw [show (9999999999 : ℚ) = ((9999999999 : ℤ) : ℚ) from by norm_num]
    exact Int.floor_intCast _
  dsimp only
  rw [hf]
  simp only [f64_as_i32, ratTrunc, if_pos (show (0 : ℚ) ≤ 9999999999 from by norm_num), hf]
  decide

/-- C1 witness: the residency line "E-Cluster HW active residency: 42.50%"
stores 42 in e_cluster_active and changes nothing else. -/
theorem c1_witness :
    (parse_cpu_metrics (resLine "E-Cluster".toList "42".toList "50".toList)
        CPUMetrics.new =
      { CPUMetrics.new with
        e_cluster_active := f64_as_i32 (decValue "42".toList "50".toList) }) ∧
    f64_as_i32 (decValue "42".toList "50".toList) = 42 := by
  constructor
  · exact (c1_residency_floor_saturated "42".toList "50".toList CPUMetrics.new
      (by decide) (by decide) (by decide) (by decide)).1
  · have hv : decValue "42".toList "50".toList = 85 / 2 := by
      unfold decValue
      rw [show natOfDigits "42".toList = 42 from by decide,
        show natOfDigits "50".toList = 50 from by decide,
        show ("50".toList).length = 2 from by decide]
      norm_num
    rw [hv]
    have hf : ⌊(85 / 2 : ℚ)⌋ = 42 := by
      rw [Int.floor_eq_iff]
      norm_num
    simp only [f64_as_i32, ratTrunc, if_pos (show (0 : ℚ) ≤ 85 / 2 from by norm_num), hf]
    decide

/-- C2: on a time-windowed series whose timestamps are nondecreasing,
retain_recent leaves no retained entry with age over 120 seconds, empties a
series whose entries are all strictly older than 120 seconds, and removes
entries only from the front, so the result is a suffix of the original with
values and order unchanged. -/
theorem c2_retain_recent_window (now : ℚ) (h : List (ℚ × Int))
    (hsort : h.Pairwise (fun p q => p.1 ≤ q.1)) :
    (∀ p ∈ retain_recent now h, now - p.1 ≤ 120) ∧
    ((∀ p ∈ h, 120 < now - p.1) → retain_recent now h = []) ∧
    (retain_recent now h <:+ h) := by
  induction h with
  | nil => exact ⟨by simp [retain_recent], fun _ => rfl, by simp [retain_recent]⟩
  | cons hd tl ih =>
    obtain ⟨t, v⟩ := hd
    rw [List.pairwise_cons] at hsort
    obtain ⟨hle, hsort2⟩ := hsort
    obtain ⟨ih1, ih2, ih3⟩ := ih hsort2
    by_cases hc : t < now - 120
    · have e : retain_recent now ((t, v) :: tl) = retain_recent now tl := by
        simp only [retain_recent]
        rw [if_pos hc]
      refine ⟨?_, ?_, ?_⟩
      · rw [e]; exact ih1
      · intro hall
        rw [e]
        exact ih2 (fun p hp => hall p (List.mem_cons_of_mem _ hp))
      · rw [e]
        exact ih3.trans (List.suffix_cons _ _)
    · have e : retain_recent now ((t, v) :: tl) = (t, v) :: tl := by
        simp only [retain_recent]
        rw [if_neg hc]
      have ht : now - t ≤ 120 := by linarith [not_lt.mp hc]
      refine ⟨?_, ?_, ?_⟩
      · intro p hp
        rw [e] at hp
        rcases List.mem_cons.mp hp with h1 | h1
        · rw [h1]
          exact ht
        · have := hle p h1
          linarith
      · intro hall
        exact absurd (hall (t, v) (by simp)) (by simp; linarith)
      · rw [e]

/-- C2 witness: retain_recent at time 200 on the sorted series
[(10, 1), (100, 2)] keeps only entries at most 120 seconds old, yields a
suffix, and the all-old implication holds. -/
theorem c2_witness :
    (∀ p ∈ retain_recent (200 : ℚ) [((10 : ℚ), (1 : Int)), ((100 : ℚ), (2 : Int))],
      200 - p.1 ≤ 120) ∧
    ((∀ p ∈ [((10 : ℚ), (1 : Int)), ((100 : ℚ), (2 : Int))], 120 < 200 - p.1) →
      retain_recent (200 : ℚ) [((10 : ℚ), (1 : Int)), ((100 : ℚ), (2 : Int))] = []) ∧
    (retain_recent (200 : ℚ) [((10 : ℚ), (1 : Int)), ((100 : ℚ), (2 : Int))] <:+
      [((10 : ℚ), (1 : Int)), ((100 : ℚ), (2 : Int))]) :=
  c2_retain_recent_window 200 [((10 : ℚ), (1 : Int)), ((100 : ℚ), (2 : Int))]
    (by simp [List.pairwise_cons]; norm_num)

/-- C3: average_history returns 0 on every empty series and the unweighted
arithmetic mean (sum of retained values divided by their count) on every
non-empty series. -/
theorem c3_average_history {α : Type} (toF64 : α → ℚ) (h : List (ℚ × α)) (hne : h ≠ []) :
    average_history toF64 ([] : List (ℚ × α)) = 0 ∧
    average_history toF64 h = (h.map (fun p => toF64 p.2)).sum / (h.length : ℚ) := by
  constructor
  · rfl
  · unfold average_history
    rw [if_neg (fun hh => hne (List.isEmpty_iff.mp hh))]

/-- C3 witness: the average of the two-sample series [(0, 3), (1, 5)] is
(3 + 5)/2 = 4, and the empty series averages to 0. -/
theorem c3_witness :
    average_history (fun x : ℚ => x) ([] : List (ℚ × ℚ)) = 0 ∧
    average_history (fun x : ℚ => x) [((0 : ℚ), (3 : ℚ)), ((1 : ℚ), (5 : ℚ))] =
      ([((0 : ℚ), (3 : ℚ)), ((1 : ℚ), (5 : ℚ))].map (fun p => p.2)).sum /
        (([((0 : ℚ), (3 : ℚ)), ((1 : ℚ), (5 : ℚ))].length : ℚ)) :=
  c3_average_history (fun x : ℚ => x) [((0 : ℚ), (3 : ℚ)), ((1 : ℚ), (5 : ℚ))] (by simp)

/-- C4: parsing the line "ANE Power: 500 mW" sets ane_w to 500/1000 = 0.5
from the third whitespace token with the mW suffix stripped; on every
processed line of the producer loop the value appended to the ANE rolling
window is the derived utilization clamp(ane_w * 100 / 8, 0, 100) of the
freshly parsed record, not the raw watts; and that derived value for 0.5 W
equals 6.25. -/
theorem c4_ane_power_and_window :
    (∀ m : CPUMetrics, (parse_cpu_metrics "ANE Power: 500 mW".toList m).ane_w = 1 / 2) ∧
    (∀ (now : ℚ) (line : List Char) (cpu : CPUMetrics) (gpu : GPUMetrics)
        (nd : NetDiskMetrics),
      ((collect_step now line cpu gpu nd).1.ane_w_history).getLast? =
        some (now, ratClamp ((parse_cpu_metrics line cpu).ane_w * 100 / 8) 0 100)) ∧
    ratClamp ((1 / 2 : ℚ) * 100 / 8) 0 100 = 25 / 4 := by
  refine ⟨?_, ?_, ?_⟩
  · intro m
    have h0 : searchResidency "ANE Power: 500 mW".toList = none := by decide
    have hf : searchFrequency "ANE Power: 500 mW".toList = none := by decide
    have hparts : trimEndMW ((splitWs "ANE Power: 500 mW".toList).getD 2 []) =
        "500".toList := by decide
    have hval : parseF64 "500".toList = some ((natOfDigits "500".toList : ℚ)) :=
      parseF64_digits (by decide) (by decide)
    simp only [parse_cpu_metrics, residency_step_of_none h0, frequency_step_of_none hf]
    unfold power_step
    rw [if_pos (show containsSub "ANE Power".toList "ANE Power: 500 mW".toList = true
      from by decide)]
    rw [if_pos (show 3 ≤ (splitWs "ANE Power: 500 mW".toList).length from by decide)]
    rw [hparts, hval]
    rw [show natOfDigits "500".toList = 500 from by decide]
    norm_num
  · intro now line cpu gpu nd
    simp only [collect_step, CPUMetrics.append_e_cluster_active,
      CPUMetrics.append_p_cluster_active, CPUMetrics.append_ane_w]
    exact retain_recent_getLast now _ _
  · unfold ratClamp
    norm_num

/-- C5: on every line containing "Combined Power (CPU + GPU + ANE)" and none
of the three more specific power substrings, with at least eight whitespace
tokens, parse_cpu_metrics sets package_w to the eighth token with the mW
suffix stripped, parsed as a number, divided by 1000. -/
theorem c5_combined_power (line : List Char) (m : CPUMetrics)
    (h1 : containsSub "Combined Power (CPU + GPU + ANE)".toList line = true)
    (h2 : containsSub "ANE Power".toList line = false)
    (h3 : containsSub "CPU Power".toList line = false)
    (h4 : containsSub "GPU Power".toList line = false)
    (h5 : 8 ≤ (splitWs line).length) :
    (parse_cpu_metrics line m).package_w =
      (parseF64 (trimEndMW ((splitWs line).getD 7 []))).getD 0 / 1000 := by
  unfold parse_cpu_metrics
  unfold power_step
  rw [if_neg (fun hh => Bool.false_ne_true (h2 ▸ hh)),
    if_neg (fun hh => Bool.false_ne_true (h3 ▸ hh)),
    if_neg (fun hh => Bool.false_ne_true (h4 ▸ hh)), if_pos h1, if_pos h5]

/-- C5 witness: the line "Combined Power (CPU + GPU + ANE): 5000 mW" stores
5000/1000 = 5 watts in package_w. -/
theorem c5_witness :
    ((parse_cpu_metrics "Combined Power (CPU + GPU + ANE): 5000 mW".toList
        CPUMetrics.new).package_w =
      (parseF64 (trimEndMW
        ((splitWs "Combined Power (CPU + GPU + ANE): 5000 mW".toList).getD 7 []))).getD 0 /
          1000) ∧
    (parseF64 (trimEndMW
      ((splitWs "Combined Power (CPU + GPU + ANE): 5000 mW".toList).getD 7 []))).getD 0 /
        1000 = 5 := by
  constructor
  · exact c5_combined_power "Combined Power (CPU + GPU + ANE): 5000 mW".toList
      CPUMetrics.new (by decide) (by decide) (by decide) (by decide) (by decide)
  · rw [show trimEndMW
        ((splitWs "Combined Power (CPU + GPU + ANE): 5000 mW".toList).getD 7 []) =
        "5000".toList from by decide,
      parseF64_digits (by decide) (by decide),
      show natOfDigits "5000".toList = 5000 from by decide]
    norm_num

/-- C6: the used percent computed by get_memory_metrics equals
(used + swap_used) / (total + swap_total) * 100 — with used the page-size
scaled sum of active, wired and compressed pages — whenever the denominator
is positive, and equals 0 when the denominator is 0. -/
theorem c6_memory_used_percent (vm : VMStats) (ps total st su sf : Nat) :
    (0 < total + st →
      (get_memory_metrics (some vm) ps (some total) (some (st, su, sf))).used_percent =
        ((vm.active_count * ps + vm.wire_count * ps + vm.compressor_page_count * ps +
            su : ℕ) : ℚ) / ((total + st : ℕ) : ℚ) * 100) ∧
    (total + st = 0 →
      (get_memory_metrics (some vm) ps (some total) (some (st, su, sf))).used_percent =
        0) := by
  unfold get_memory_metrics
  dsimp only
  constructor
  · intro h
    rw [if_pos h]
  · intro h
    rw [if_neg (by omega)]

/-- C6 witness: with one active, two wired and three compressed pages of
4096 bytes, total 8, swap total 2 and swap used 1, the used percent is the
swap-inclusive ratio times 100. -/
theorem c6_witness :
    (get_memory_metrics (some ⟨1, 2, 3⟩) 4096 (some 8)
        (some (2, 1, 0))).used_percent =
      ((1 * 4096 + 2 * 4096 + 3 * 4096 + 1 : ℕ) : ℚ) / ((8 + 2 : ℕ) : ℚ) * 100 :=
  (c6_memory_used_percent ⟨1, 2, 3⟩ 4096 8 2 1 0).1 (by norm_num)

/-- C7: draining a channel with the while-let try_recv loop keeps the
previously retained snapshot when nothing is pending and otherwise keeps
exactly the most recently sent snapshot, discarding every earlier pending
snapshot without merging it into any state. -/
theorem c7_drain_latest_wins (r x : CPUMetrics) (pre : List CPUMetrics) :
    drain_channel r ([] : List CPUMetrics) = r ∧ drain_channel r (pre ++ [x]) = x := by
  have key : ∀ (q : List CPUMetrics) (s : CPUMetrics), drain_channel s (q ++ [x]) = x := by
    intro q
    induction q with
    | nil => intro s; rfl
    | cons p t ih => intro s; exact ih p
  exact ⟨rfl, key pre r⟩

theorem netdisk_tail_out_frame (line : List Char) (x : NetDiskMetrics) :
    (write_step line (read_step line (in_step line x))).out_packets_per_sec =
      x.out_packets_per_sec ∧
    (write_step line (read_step line (in_step line x))).out_bytes_per_sec =
      x.out_bytes_per_sec := by
  obtain ⟨i1, i2⟩ := in_step_out_frame line x
  obtain ⟨r1, r2⟩ := read_step_out_frame line (in_step line x)
  obtain ⟨w1, w2⟩ := write_step_out_frame line (read_step line (in_step line x))
  exact ⟨w1.trans (r1.trans i1), w2.trans (r2.trans i2)⟩

theorem read_step_in_frame (line : List Char) (nd : NetDiskMetrics) :
    (read_step line nd).in_packets_per_sec = nd.in_packets_per_sec ∧
    (read_step line nd).in_bytes_per_sec = nd.in_bytes_per_sec := by
  unfold read_step
  cases hsi : searchRead line with
  | none => exact ⟨rfl, rfl⟩
  | some s => obtain ⟨pp, bb⟩ := s; exact ⟨rfl, rfl⟩

theorem write_step_in_frame (line : List Char) (nd : NetDiskMetrics) :
    (write_step line nd).in_packets_per_sec = nd.in_packets_per_sec ∧
    (write_step line nd).in_bytes_per_sec = nd.in_bytes_per_sec := by
  unfold write_step
  cases hsi : searchWrite line with
  | none => exact ⟨rfl, rfl⟩
  | some s => obtain ⟨pp, bb⟩ := s; exact ⟨rfl, rfl⟩

theorem write_step_read_frame (line : List Char) (nd : NetDiskMetrics) :
    (write_step line nd).read_ops_per_sec = nd.read_ops_per_sec ∧
    (write_step line nd).read_kbytes_per_sec = nd.read_kbytes_per_sec := by
  unfold write_step
  cases hsi : searchWrite line with
  | none => exact ⟨rfl, rfl⟩
  | some s => obtain ⟨pp, bb⟩ := s; exact ⟨rfl, rfl⟩

theorem bool_true_false {b : Bool} (h1 : b = true) (h2 : b = false) : False := by
  rw [h2] at h1
  exact Bool.false_ne_true h1

/-- C8: whenever a pattern matches a line but a captured numeric text fails
to parse, the corresponding field is set to 0 (modelling 0.0) and parsing
of the remaining fields of that line continues.  Each capture of the
out/in/read/write patterns feeds its own field independently, so an
unparseable packets value still lets the bytes field be parsed and set and
conversely; an unparseable cluster frequency capture stores 0 in the
matching cluster's frequency field, an unparseable GPU frequency capture
stores 0, and an unparseable power token stores 0 in the watt field of the
branch the dispatch selects. -/
theorem c8_numeric_parse_failure (line : List Char) (m : CPUMetrics) (g : GPUMetrics)
    (nd : NetDiskMetrics) :
    (∀ p b : List Char, searchOut line = some (p, b) →
      (parseF64 p = none → (parse_netdisk_metrics line nd).out_packets_per_sec = 0) ∧
      (parseF64 b = none → (parse_netdisk_metrics line nd).out_bytes_per_sec = 0) ∧
      (parse_netdisk_metrics line nd).out_packets_per_sec = (parseF64 p).getD 0 ∧
      (parse_netdisk_metrics line nd).out_bytes_per_sec = (parseF64 b).getD 0) ∧
    (∀ p b : List Char, searchIn line = some (p, b) →
      (parseF64 p = none → (parse_netdisk_metrics line nd).in_packets_per_sec = 0) ∧
      (parseF64 b = none → (parse_netdisk_metrics line nd).in_bytes_per_sec = 0) ∧
      (parse_netdisk_metrics line nd).in_packets_per_sec = (parseF64 p).getD 0 ∧
      (parse_netdisk_metrics line nd).in_bytes_per_sec = (parseF64 b).getD 0) ∧
    (∀ p b : List Char, searchRead line = some (p, b) →
      (parseF64 p = none → (parse_netdisk_metrics line nd).read_ops_per_sec = 0) ∧
      (parseF64 b = none → (parse_netdisk_metrics line nd).read_kbytes_per_sec = 0) ∧
      (parse_netdisk_metrics line nd).read_ops_per_sec = (parseF64 p).getD 0 ∧
      (parse_netdisk_metrics line nd).read_kbytes_per_sec = (parseF64 b).getD 0) ∧
    (∀ p b : List Char, searchWrite line = some (p, b) →
      (parseF64 p = none → (parse_netdisk_metrics line nd).write_ops_per_sec = 0) ∧
      (parseF64 b = none → (parse_netdisk_metrics line nd).write_kbytes_per_sec = 0) ∧
      (parse_netdisk_metrics line nd).write_ops_per_sec = (parseF64 p).getD 0 ∧
      (parse_netdisk_metrics line nd).write_kbytes_per_sec = (parseF64 b).getD 0) ∧
    (∀ c d : List Char, searchFrequency line = some (c, d) → parseI32 d = none →
      ((c = "E-Cluster".toList ∨ c = "E0-Cluster".toList) →
        (parse_cpu_metrics line m).e_cluster_freq_mhz = 0) ∧
      ((c = "P-Cluster".toList ∨ c = "P0-Cluster".toList) →
        (parse_cpu_metrics line m).p_cluster_freq_mhz = 0)) ∧
    (∀ d : List Char, searchGpuFreq line = some d → parseI32 d = none →
      (parse_gpu_metrics line g).freq_mhz = 0) ∧
    (containsSub "ANE Power".toList line = true → 3 ≤ (splitWs line).length →
      parseF64 (trimEndMW ((splitWs line).getD 2 [])) = none →
      (parse_cpu_metrics line m).ane_w = 0) ∧
    (containsSub "ANE Power".toList line = false →
      containsSub "CPU Power".toList line = true → 3 ≤ (splitWs line).length →
      parseF64 (trimEndMW ((splitWs line).getD 2 [])) = none →
      (parse_cpu_metrics line m).cpu_w = 0) ∧
    (containsSub "ANE Power".toList line = false →
      containsSub "CPU Power".toList line = false →
      containsSub "GPU Power".toList line = true → 3 ≤ (splitWs line).length →
      parseF64 (trimEndMW ((splitWs line).getD 2 [])) = none →
      (parse_cpu_metrics line m).gpu_w = 0) ∧
    (containsSub "ANE Power".toList line = false →
      containsSub "CPU Power".toList line = false →
      containsSub "GPU Power".toList line = false →
      containsSub "Combined Power (CPU + GPU + ANE)".toList line = true →
      8 ≤ (splitWs line).length →
      parseF64 (trimEndMW ((splitWs line).getD 7 [])) = none →
      (parse_cpu_metrics line m).package_w = 0) := by
  refine ⟨?_, ?_, ?_, ?_, ?_, ?_, ?_, ?_, ?_, ?_⟩
  · intro p b hs
    have ho : out_step line nd =
        { nd with out_packets_per_sec := (parseF64 p).getD 0,
                  out_bytes_per_sec := (parseF64 b).getD 0 } := by
      unfold out_step
      rw [hs]
    unfold parse_netdisk_metrics
    rw [ho]
    have ht := netdisk_tail_out_frame line
      { nd with out_packets_per_sec := (parseF64 p).getD 0,
                out_bytes_per_sec := (parseF64 b).getD 0 }
    refine ⟨fun hp => ?_, fun hb => ?_, ht.1, ht.2⟩
    · rw [ht.1]
      dsimp only
      rw [hp]
      rfl
    · rw [ht.2]
      dsimp only
      rw [hb]
      rfl
  · intro p b hs
    have hi : in_step line (out_step line nd) =
        { out_step line nd with in_packets_per_sec := (parseF64 p).getD 0,
                                in_bytes_per_sec := (parseF64 b).getD 0 } := by
      unfold in_step
      rw [hs]
    unfold parse_netdisk_metrics
    rw [hi]
    have h1 := read_step_in_frame line
      { out_step line nd with in_packets_per_sec := (parseF64 p).getD 0,
                              in_bytes_per_sec := (parseF64 b).getD 0 }
    have h2 := write_step_in_frame line (read_step line
      { out_step line nd with in_packets_per_sec := (parseF64 p).getD 0,
                              in_bytes_per_sec := (parseF64 b).getD 0 })
    refine ⟨fun hp => ?_, fun hb => ?_, h2.1.trans h1.1, h2.2.trans h1.2⟩
    · rw [h2.1, h1.1]
      dsimp only
      rw [hp]
      rfl
    · rw [h2.2, h1.2]
      dsimp only
      rw [hb]
      rfl
  · intro p b hs
    have hr : read_step line (in_step line (out_step line nd)) =
        { in_step line (out_step line nd) with
            read_ops_per_sec := (parseF64 p).getD 0,
            read_kbytes_per_sec := (parseF64 b).getD 0 } := by
      unfold read_step
      rw [hs]
    unfold parse_netdisk_metrics
    rw [hr]
    have h2 := write_step_read_frame line
      { in_step line (out_step line nd) with
          read_ops_per_sec := (parseF64 p).getD 0,
          read_kbytes_per_sec := (parseF64 b).getD 0 }
    refine ⟨fun hp => ?_, fun hb => ?_, h2.1, h2.2⟩
    · rw [h2.1]
      dsimp only
      rw [hp]
      rfl
    · rw [h2.2]
      dsimp only
      rw [hb]
      rfl
  · intro p b hs
    have hw : write_step line (read_step line (in_step line (out_step line nd))) =
        { read_step line (in_step line (out_step line nd)) with
            write_ops_per_sec := (parseF64 p).getD 0,
            write_kbytes_per_sec := (parseF64 b).getD 0 } := by
      unfold write_step
      rw [hs]
    unfold parse_netdisk_metrics
    rw [hw]
    refine ⟨fun hp => ?_, fun hb => ?_, rfl, rfl⟩
    · dsimp only
      rw [hp]
      rfl
    · dsimp only
      rw [hb]
      rfl
  · intro c d hs hp
    constructor
    · intro hcl
      have hfr : frequency_step line (residency_step line m) =
          { residency_step line m with e_cluster_freq_mhz := (parseI32 d).getD 0 } := by
        unfold frequency_step
        rw [hs]
        dsimp only
        rcases hcl with h | h
        · rw [if_pos (Or.inl h)]
        · rw [if_pos (Or.inr h)]
      unfold parse_cpu_metrics
      rw [(power_step_cluster_frame line
        (frequency_step line (residency_step line m))).2.2.1, hfr]
      dsimp only
      rw [hp]
      rfl
    · intro hcl
      have hfr : frequency_step line (residency_step line m) =
          { residency_step line m with p_cluster_freq_mhz := (parseI32 d).getD 0 } := by
        unfold frequency_step
        rw [hs]
        dsimp only
        rcases hcl with h | h <;> subst h
        · rw [if_neg (by decide), if_pos (Or.inl rfl)]
        · rw [if_neg (by decide), if_pos (Or.inr rfl)]
      unfold parse_cpu_metrics
      rw [(power_step_cluster_frame line
        (frequency_step line (residency_step line m))).2.2.2, hfr]
      dsimp only
      rw [hp]
      rfl
  · intro d hs hp
    unfold parse_gpu_metrics gpu_freq_step
    rw [hs]
    dsimp only
    rw [hp]
    rfl
  · intro hA hlen hp
    unfold parse_cpu_metrics power_step
    rw [if_pos hA, if_pos hlen]
    dsimp only
    rw [hp]
    simp
  · intro hAf hCt hlen hp
    unfold parse_cpu_metrics power_step
    rw [if_neg (fun hh => Bool.false_ne_true (hAf ▸ hh)), if_pos hCt, if_pos hlen]
    dsimp only
    rw [hp]
    simp
  · intro hAf hCf hGt hlen hp
    unfold parse_cpu_metrics power_step
    rw [if_neg (fun hh => Bool.false_ne_true (hAf ▸ hh)),
      if_neg (fun hh => Bool.false_ne_true (hCf ▸ hh)), if_pos hGt, if_pos hlen]
    dsimp only
    rw [hp]
    simp
  · intro hAf hCf hGf hBt hlen hp
    unfold parse_cpu_metrics power_step
    rw [if_neg (fun hh => Bool.false_ne_true (hAf ▸ hh)),
      if_neg (fun hh => Bool.false_ne_true (hCf ▸ hh)),
      if_neg (fun hh => Bool.false_ne_true (hGf ▸ hh)), if_pos hBt, if_pos hlen]
    dsimp only
    rw [hp]
    simp

/-- C8 witness: "out: 1.2.3 packets/s, 100 bytes/s" has an unparseable
packets capture, so out_packets_per_sec becomes 0 while out_bytes_per_sec
is still parsed; "in: 2.2.2 packets/s, 50 bytes/s" likewise zeroes the in
packets field; the overflowing line
"E-Cluster HW active frequency: 99999999999 MHz" stores 0; and
"ANE Power: 1.2.3 mW" has an unparseable power token and stores 0 watts. -/
theorem c8_witness :
    ((parse_netdisk_metrics "out: 1.2.3 packets/s, 100 bytes/s".toList
        NetDiskMetrics.new).out_packets_per_sec = 0 ∧
     (parse_netdisk_metrics "out: 1.2.3 packets/s, 100 bytes/s".toList
        NetDiskMetrics.new).out_bytes_per_sec = (parseF64 "100".toList).getD 0) ∧
    (parse_netdisk_metrics "in: 2.2.2 packets/s, 50 bytes/s".toList
        NetDiskMetrics.new).in_packets_per_sec = 0 ∧
    (parse_cpu_metrics "E-Cluster HW active frequency: 99999999999 MHz".toList
        CPUMetrics.new).e_cluster_freq_mhz = 0 ∧
    (parse_cpu_metrics "ANE Power: 1.2.3 mW".toList CPUMetrics.new).ane_w = 0 := by
  refine ⟨⟨?_, ?_⟩, ?_, ?_, ?_⟩
  · exact ((c8_numeric_parse_failure "out: 1.2.3 packets/s, 100 bytes/s".toList
      CPUMetrics.new GPUMetrics.new NetDiskMetrics.new).1 "1.2.3".toList "100".toList
      (by decide)).1 (by decide)
  · exact ((c8_numeric_parse_failure "out: 1.2.3 packets/s, 100 bytes/s".toList
      CPUMetrics.new GPUMetrics.new NetDiskMetrics.new).1 "1.2.3".toList "100".toList
      (by decide)).2.2.2
  · exact ((c8_numeric_parse_failure "in: 2.2.2 packets/s, 50 bytes/s".toList
      CPUMetrics.new GPUMetrics.new NetDiskMetrics.new).2.1 "2.2.2".toList "50".toList
      (by decide)).1 (by decide)
  · exact ((c8_numeric_parse_failure
      "E-Cluster HW active frequency: 99999999999 MHz".toList CPUMetrics.new
      GPUMetrics.new NetDiskMetrics.new).2.2.2.2.1 "E-Cluster".toList
      "99999999999".toList (by decide) (by decide)).1 (Or.inl rfl)
  · exact (c8_numeric_parse_failure "ANE Power: 1.2.3 mW".toList CPUMetrics.new
      GPUMetrics.new NetDiskMetrics.new).2.2.2.2.2.2.1 (by decide) (by decide)
      (by decide)

/-- C9: the residency regexes require a percent with a decimal point, so on
a line "<Cluster> HW active residency: N%" with plain-integer N and any of
the recognized cluster spellings (or the GPU form), no residency regex
matches and both the CPUMetrics and GPUMetrics records are left completely
unchanged. -/
theorem c9_integer_percent_no_match (d : List Char) (m : CPUMetrics) (g : GPUMetrics)
    (_hd1 : d ≠ []) (hd2 : ∀ x ∈ d, x.isDigit = true) :
    (searchResidency (intResLine "E-Cluster".toList d) = none ∧
     searchGpuActive (intResLine "E-Cluster".toList d) = none ∧
     parse_cpu_metrics (intResLine "E-Cluster".toList d) m = m ∧
     parse_gpu_metrics (intResLine "E-Cluster".toList d) g = g) ∧
    (searchResidency (intResLine "E0-Cluster".toList d) = none ∧
     searchGpuActive (intResLine "E0-Cluster".toList d) = none ∧
     parse_cpu_metrics (intResLine "E0-Cluster".toList d) m = m ∧
     parse_gpu_metrics (intResLine "E0-Cluster".toList d) g = g) ∧
    (searchResidency (intResLine "P-Cluster".toList d) = none ∧
     searchGpuActive (intResLine "P-Cluster".toList d) = none ∧
     parse_cpu_metrics (intResLine "P-Cluster".toList d) m = m ∧
     parse_gpu_metrics (intResLine "P-Cluster".toList d) g = g) ∧
    (searchResidency (intResLine "P0-Cluster".toList d) = none ∧
     searchGpuActive (intResLine "P0-Cluster".toList d) = none ∧
     parse_cpu_metrics (intResLine "P0-Cluster".toList d) m = m ∧
     parse_gpu_metrics (intResLine "P0-Cluster".toList d) g = g) ∧
    (searchResidency (intResLine "GPU".toList d) = none ∧
     searchGpuActive (intResLine "GPU".toList d) = none ∧
     parse_cpu_metrics (intResLine "GPU".toList d) m = m ∧
     parse_gpu_metrics (intResLine "GPU".toList d) g = g) :=
  ⟨intResLine_unchanged "E-Cluster".toList d m g (by decide) (by decide) (by decide) hd2,
   intResLine_unchanged "E0-Cluster".toList d m g (by decide) (by decide) (by decide) hd2,
   intResLine_unchanged "P-Cluster".toList d m g (by decide) (by decide) (by decide) hd2,
   intResLine_unchanged "P0-Cluster".toList d m g (by decide) (by decide) (by decide) hd2,
   intResLine_unchanged "GPU".toList d m g (by decide) (by decide) (by decide) hd2⟩

/-- C9 witness: the integer-percent line "E-Cluster HW active residency: 42%"
matches no residency regex and leaves fresh records unchanged. -/
theorem c9_witness :
    searchResidency (intResLine "E-Cluster".toList "42".toList) = none ∧
    searchGpuActive (intResLine "E-Cluster".toList "42".toList) = none ∧
    parse_cpu_metrics (intResLine "E-Cluster".toList "42".toList) CPUMetrics.new =
      CPUMetrics.new ∧
    parse_gpu_metrics (intResLine "E-Cluster".toList "42".toList) GPUMetrics.new =
      GPUMetrics.new :=
  (c9_integer_percent_no_match "42".toList CPUMetrics.new GPUMetrics.new
    (by decide) (by decide)).1

/-- C10: power-line dispatch in parse_cpu_metrics is mutually exclusive with
the fixed precedence ANE > CPU > GPU > Combined: on every line at most one
of the four power fields (ane_w, cpu_w, gpu_w, package_w) changes; a line
containing "ANE Power" never updates cpu_w, gpu_w or package_w even if
their trigger substrings also occur, and symmetrically at each lower
precedence level only that level's field may change while the others keep
their prior values, with the selected field receiving the parsed token when
enough whitespace tokens are present; and a matched power line with too few
whitespace tokens (three for the specific branches, eight for Combined)
leaves its field unchanged rather than zeroing it. -/
theorem c10_power_dispatch_exclusive (line : List Char) (m : CPUMetrics) :
    (((parse_cpu_metrics line m).cpu_w = m.cpu_w ∧
      (parse_cpu_metrics line m).gpu_w = m.gpu_w ∧
      (parse_cpu_metrics line m).package_w = m.package_w) ∨
     ((parse_cpu_metrics line m).ane_w = m.ane_w ∧
      (parse_cpu_metrics line m).gpu_w = m.gpu_w ∧
      (parse_cpu_metrics line m).package_w = m.package_w) ∨
     ((parse_cpu_metrics line m).ane_w = m.ane_w ∧
      (parse_cpu_metrics line m).cpu_w = m.cpu_w ∧
      (parse_cpu_metrics line m).package_w = m.package_w) ∨
     ((parse_cpu_metrics line m).ane_w = m.ane_w ∧
      (parse_cpu_metrics line m).cpu_w = m.cpu_w ∧
      (parse_cpu_metrics line m).gpu_w = m.gpu_w)) ∧
    (containsSub "ANE Power".toList line = true →
      ((parse_cpu_metrics line m).cpu_w = m.cpu_w ∧
       (parse_cpu_metrics line m).gpu_w = m.gpu_w ∧
       (parse_cpu_metrics line m).package_w = m.package_w) ∧
      (3 ≤ (splitWs line).length →
        (parse_cpu_metrics line m).ane_w =
          (parseF64 (trimEndMW ((splitWs line).getD 2 []))).getD 0 / 1000) ∧
      ((splitWs line).length < 3 → (parse_cpu_metrics line m).ane_w = m.ane_w)) ∧
    (containsSub "ANE Power".toList line = false →
      containsSub "CPU Power".toList line = true →
      ((parse_cpu_metrics line m).ane_w = m.ane_w ∧
       (parse_cpu_metrics line m).gpu_w = m.gpu_w ∧
       (parse_cpu_metrics line m).package_w = m.package_w) ∧
      (3 ≤ (splitWs line).length →
        (parse_cpu_metrics line m).cpu_w =
          (parseF64 (trimEndMW ((splitWs line).getD 2 []))).getD 0 / 1000) ∧
      ((splitWs line).length < 3 → (parse_cpu_metrics line m).cpu_w = m.cpu_w)) ∧
    (containsSub "ANE Power".toList line = false →
      containsSub "CPU Power".toList line = false →
      containsSub "GPU Power".toList line = true →
      ((parse_cpu_metrics line m).ane_w = m.ane_w ∧
       (parse_cpu_metrics line m).cpu_w = m.cpu_w ∧
       (parse_cpu_metrics line m).package_w = m.package_w) ∧
      (3 ≤ (splitWs line).length →
        (parse_cpu_metrics line m).gpu_w =
          (parseF64 (trimEndMW ((splitWs line).getD 2 []))).getD 0 / 1000) ∧
      ((splitWs line).length < 3 → (parse_cpu_metrics line m).gpu_w = m.gpu_w)) ∧
    (containsSub "ANE Power".toList line = false →
      containsSub "CPU Power".toList line = false →
      containsSub "GPU Power".toList line = false →
      containsSub "Combined Power (CPU + GPU + ANE)".toList line = true →
      ((parse_cpu_metrics line m).ane_w = m.ane_w ∧
       (parse_cpu_metrics line m).cpu_w = m.cpu_w ∧
       (parse_cpu_metrics line m).gpu_w = m.gpu_w) ∧
      (8 ≤ (splitWs line).length →
        (parse_cpu_metrics line m).package_w =
          (parseF64 (trimEndMW ((splitWs line).getD 7 []))).getD 0 / 1000) ∧
      ((splitWs line).length < 8 →
        (parse_cpu_metrics line m).package_w = m.package_w)) := by
  obtain ⟨-, -, r3, r4, r5, r6⟩ := residency_step_frame line m
  obtain ⟨-, -, f3, f4, f5, f6⟩ := frequency_step_frame line (residency_step line m)
  have e3 : (frequency_step line (residency_step line m)).ane_w = m.ane_w := f3.trans r3
  have e4 : (frequency_step line (residency_step line m)).cpu_w = m.cpu_w := f4.trans r4
  have e5 : (frequency_step line (residency_step line m)).gpu_w = m.gpu_w := f5.trans r5
  have e6 : (frequency_step line (residency_step line m)).package_w = m.package_w :=
    f6.trans r6
  unfold parse_cpu_metrics power_step
  dsimp only
  split_ifs with hA hl1 hC hl2 hG hl3 hB hl4
  · exact ⟨Or.inl ⟨e4, e5, e6⟩,
      fun _ => ⟨⟨e4, e5, e6⟩, fun _ => rfl, fun hlen => absurd hl1 (by omega)⟩,
      fun hf _ => (bool_true_false hA hf).elim,
      fun hf _ _ => (bool_true_false hA hf).elim,
      fun hf _ _ _ => (bool_true_false hA hf).elim⟩
  · exact ⟨Or.inl ⟨e4, e5, e6⟩,
      fun _ => ⟨⟨e4, e5, e6⟩, fun hlen => absurd hlen hl1, fun _ => e3⟩,
      fun hf _ => (bool_true_false hA hf).elim,
      fun hf _ _ => (bool_true_false hA hf).elim,
      fun hf _ _ _ => (bool_true_false hA hf).elim⟩
  · exact ⟨Or.inr (Or.inl ⟨e3, e5, e6⟩),
      fun ht => absurd ht hA,
      fun _ _ => ⟨⟨e3, e5, e6⟩, fun _ => rfl, fun hlen => absurd hl2 (by omega)⟩,
      fun _ hcf _ => (bool_true_false hC hcf).elim,
      fun _ hcf _ _ => (bool_true_false hC hcf).elim⟩
  · exact ⟨Or.inl ⟨e4, e5, e6⟩,
      fun ht => absurd ht hA,
      fun _ _ => ⟨⟨e3, e5, e6⟩, fun hlen => absurd hlen hl2, fun _ => e4⟩,
      fun _ hcf _ => (bool_true_false hC hcf).elim,
      fun _ hcf _ _ => (bool_true_false hC hcf).elim⟩
  · exact ⟨Or.inr (Or.inr (Or.inl ⟨e3, e4, e6⟩)),
      fun ht => absurd ht hA,
      fun _ hct => absurd hct hC,
      fun _ _ _ => ⟨⟨e3, e4, e6⟩, fun _ => rfl, fun hlen => absurd hl3 (by omega)⟩,
      fun _ _ hgf _ => (bool_true_false hG hgf).elim⟩
  · exact ⟨Or.inl ⟨e4, e5, e6⟩,
      fun ht => absurd ht hA,
      fun _ hct => absurd hct hC,
      fun _ _ _ => ⟨⟨e3, e4, e6⟩, fun hlen => absurd hlen hl3, fun _ => e5⟩,
      fun _ _ hgf _ => (bool_true_false hG hgf).elim⟩
  · exact ⟨Or.inr (Or.inr (Or.inr ⟨e3, e4, e5⟩)),
      fun ht => absurd ht hA,
      fun _ hct => absurd hct hC,
      fun _ _ hgt => absurd hgt hG,
      fun _ _ _ _ => ⟨⟨e3, e4, e5⟩, fun _ => rfl, fun hlen => absurd hl4 (by omega)⟩⟩
  · exact ⟨Or.inl ⟨e4, e5, e6⟩,
      fun ht => absurd ht hA,
      fun _ hct => absurd hct hC,
      fun _ _ hgt => absurd hgt hG,
      fun _ _ _ _ => ⟨⟨e3, e4, e5⟩, fun hlen => absurd hlen hl4, fun _ => e6⟩⟩
  · exact ⟨Or.inl ⟨e4, e5, e6⟩,
      fun ht => absurd ht hA,
      fun _ hct => absurd hct hC,
      fun _ _ hgt => absurd hgt hG,
      fun _ _ _ hbt => absurd hbt hB⟩

/-- C10 witness: "ANE Power CPU Power" contains both trigger substrings but
only the ANE branch runs, leaving cpu_w, gpu_w and package_w untouched; the
two-token line "ANE Power" leaves ane_w unchanged; and on
"CPU Power GPU Power" the CPU branch takes precedence, leaving gpu_w
untouched while cpu_w receives its (unparseable, hence zero) token. -/
theorem c10_witness :
    ((parse_cpu_metrics "ANE Power CPU Power".toList CPUMetrics.new).cpu_w =
      CPUMetrics.new.cpu_w ∧
     (parse_cpu_metrics "ANE Power CPU Power".toList CPUMetrics.new).gpu_w =
      CPUMetrics.new.gpu_w ∧
     (parse_cpu_metrics "ANE Power CPU Power".toList CPUMetrics.new).package_w =
      CPUMetrics.new.package_w) ∧
    (parse_cpu_metrics "ANE Power".toList CPUMetrics.new).ane_w =
      CPUMetrics.new.ane_w ∧
    (parse_cpu_metrics "CPU Power GPU Power".toList CPUMetrics.new).gpu_w =
      CPUMetrics.new.gpu_w ∧
    (parse_cpu_metrics "CPU Power GPU Power".toList CPUMetrics.new).cpu_w =
      (parseF64 (trimEndMW
        ((splitWs "CPU Power GPU Power".toList).getD 2 []))).getD 0 / 1000 := by
  refine ⟨?_, ?_, ?_, ?_⟩
  · exact ((c10_power_dispatch_exclusive "ANE Power CPU Power".toList
      CPUMetrics.new).2.1 (by decide)).1
  · exact ((c10_power_dispatch_exclusive "ANE Power".toList CPUMetrics.new).2.1
      (by decide)).2.2 (by decide)
  · exact ((c10_power_dispatch_exclusive "CPU Power GPU Power".toList
      CPUMetrics.new).2.2.1 (by decide) (by decide)).1.2.1
  · exact ((c10_power_dispatch_exclusive "CPU Power GPU Power".toList
      CPUMetrics.new).2.2.1 (by decide) (by decide)).2.1 (by decide)

example : searchResidency ("E-Cluster HW active residency: 42.50%".toList) =
    some ("E-Cluster".toList, "42.50".toList) := by decide

example : parseF64 "1.2.3".toList = none := by decide

example : searchOut "out: 1.2.3 packets/s, 100 bytes/s".toList =
    some ("1.2.3".toList, "100".toList) := by decide

example : splitWs "Combined Power (CPU + GPU + ANE): 5000 mW".toList =
    ["Combined".toList, "Power".toList, "(CPU".toList, "+".toList, "GPU".toList,
     "+".toList, "ANE):".toList, "5000".toList, "mW".toList] := by decide

example : trimEndMW "500mW".toList = "500".toList := by decide

example : searchFrequency "E-Cluster HW active frequency: 1500 MHz".toList =
    some ("E-Cluster".toList, "1500".toList) := by decide

example : searchResidency "E-Cluster HW active residency: 42%".toList = none := by decide

example : searchGpuActive "GPU HW active residency: 37.87%".toList =
    some ("37.87".toList) := by decide

example : parseI32 "99999999999".toList = none := by decide

example : containsSub "ANE Power".toList "ANE Power: 500 mW".toList = true := by decide
